import Mathlib

/-!
# RTSPWebRTCPlayer (src/script.js): connection lifecycle and retry logic

A shallow embedding of the `RTSPWebRTCPlayer` class.  JavaScript runs every
event handler to completion on one thread, so each handler is a function from
the state before it to the state after it.  The state is the player object
(`Player`), the page elements it reads and writes (`Elements`), every
`RTCPeerConnection` the code has constructed so far (`World.pcs`, the player's
`webrtc` field is an index into it, `none` for `null`), the pending
`setTimeout` callbacks with the clock (`World.timers`, `World.now`), and the
runs of the asynchronous negotiation handler that are suspended at an `await`
(`World.tasks`).  A suspended run resumes in a later turn, and reads
`this.webrtc` again when it does.

The browser is the environment: it decides when the page's events fire and what
the awaited WebRTC and `fetch` calls return.  Those choices are the `Event`s.
-/

namespace RTSPWebRTCPlayer

/-! ## Strings -/

/-- The code points `String.prototype.trim` strips: ECMAScript WhiteSpace and
LineTerminator. -/
def isWhiteSpace (c : Char) : Bool :=
  let n := c.toNat
  n == 0x09 || n == 0x0A || n == 0x0B || n == 0x0C || n == 0x0D || n == 0x20 ||
  n == 0xA0 || n == 0x1680 || (0x2000 ≤ n && n ≤ 0x200A) || n == 0x2028 ||
  n == 0x2029 || n == 0x202F || n == 0x205F || n == 0x3000 || n == 0xFEFF

/-- The method `s.trim()`. -/
def trim (s : String) : String :=
  ⟨((s.data.dropWhile isWhiteSpace).reverse.dropWhile isWhiteSpace).reverse⟩

/-- The call `btoa(s)` throws `InvalidCharacterError` when `s` has a code unit above 0xFF. -/
def btoaThrows (s : String) : Bool :=
  s.data.any (fun c => decide (0xFF < c.toNat))

/-! ## Data model -/

/-- The values of `RTCPeerConnection.connectionState`. -/
inductive ConnectionState where
  | new
  | connecting
  | connected
  | disconnected
  | failed
  | closed
  deriving DecidableEq, Repr

/-- One `RTCPeerConnection` built by `createWebRTCConnection`, with the `url`
its `onnegotiationneeded` closure captured. -/
structure PeerConnection where
  connectionState : ConnectionState
  localDescription : Option String
  remoteDescription : Option String
  transceivers : List (String × String)
  url : String
  deriving DecidableEq, Repr

/-- The page elements in `this.elements`, reduced to the properties the class
reads or writes. -/
structure Elements where
  streamPath : String
  serverUrl : String
  username : String
  password : String
  playBtnDisabled : Bool
  stopBtnDisabled : Bool
  videoSrcObject : Option Nat
  statusText : String
  statusDisplayClassName : String
  statusDisplayHidden : Bool
  connectionDetails : String
  connectionInfoHidden : Bool
  playerWrapHidden : Bool
  deriving DecidableEq, Repr

/-- The fields the constructor sets on `this`. -/
structure Player where
  webrtc : Option Nat
  connectionAttempts : Nat
  maxRetries : Nat
  isConnected : Bool
  isTrackStarted : Bool
  elements : Elements
  deriving DecidableEq, Repr

/-- A `fetch` response. -/
structure Response where
  status : Nat
  statusText : String
  body : String
  deriving DecidableEq, Repr

/-- The getter `response.ok`: the status is in 200..299. -/
def Response.ok (r : Response) : Bool :=
  decide (200 ≤ r.status) && decide (r.status ≤ 299)

/-- A run of the `onnegotiationneeded` handler suspended at one of its `await`s,
with the local variables it still needs: the captured `url`, and for the
calls on a connection the connection `this.webrtc` was when the call was
made. -/
inductive Suspended where
  /-- Suspended at `await this.webrtc.createOffer()`. -/
  | createOffer (url : String)
  /-- Suspended at `await this.webrtc.setLocalDescription(offer)`. -/
  | setLocalDescription (url : String) (target : Nat) (offer : String)
  /-- Suspended at `await fetch(url, ...)`. -/
  | fetch (url : String)
  /-- Suspended at `await response.text()`. -/
  | text (url : String) (response : Response)
  /-- Suspended at `await this.webrtc.setRemoteDescription(...)`. -/
  | setRemoteDescription (url : String) (target : Nat) (answer : String)
  deriving DecidableEq, Repr

/-- The player together with the browser objects it drives. -/
structure World where
  player : Player
  pcs : List PeerConnection
  now : Nat
  timers : List Nat
  tasks : List Suspended
  deriving DecidableEq, Repr

/-- The table `this.statusMessages`. -/
structure StatusMessages where
  connecting : String
  connected : String
  loading : String
  disconnected : String
  closed : String
  failed : String
  noUrl : String
  reconnecting : String
  ready : String

/-- The messages the constructor stores in `this.statusMessages`. -/
def statusMessages : StatusMessages where
  connecting := "Connecting to stream..."
  connected := "Connected to server"
  loading := "Loading stream..."
  disconnected := "Disconnected from server"
  closed := "Connection closed"
  failed := "Connection failed"
  noUrl := "Please enter a stream path"
  reconnecting := "Reconnecting..."
  ready := "Ready to connect"

/-- The constructor, on a page whose elements are `e`. -/
def constructor (e : Elements) : World where
  player :=
    { webrtc := none
      connectionAttempts := 0
      maxRetries := 4
      isConnected := false
      isTrackStarted := false
      elements := e }
  pcs := []
  now := 0
  timers := []
  tasks := []

/-! ## Methods -/

/-- The method `updateStatus(message, type)`: assigning `className` replaces the whole class
list, so the `hidden` class is gone afterwards. -/
def updateStatus (message type : String) (w : World) : World :=
  { w with player := { w.player with elements := { w.player.elements with
      statusText := message
      statusDisplayClassName := "status-display " ++ type
      statusDisplayHidden := false } } }

/-- The method `updateConnectionInfo(details)`. -/
def updateConnectionInfo (details : String) (w : World) : World :=
  { w with player := { w.player with elements := { w.player.elements with
      connectionDetails := details
      connectionInfoHidden := false } } }

/-- The call `pc.close()` on the connection at index `i`: the connection state becomes
`closed`; no event is dispatched. -/
def closePc (i : Nat) (pcs : List PeerConnection) : List PeerConnection :=
  pcs.modify (fun pc => { pc with connectionState := ConnectionState.closed }) i

/-- The method `createWebRTCConnection(streamPath, serverUrl)`: the body has no `await`, so it
runs inside the caller's turn.  The handlers it installs are the functions
`ontrack`, `onconnectionstatechange`, `onnegotiationneeded` and `onerror`
below; they close over `this`, not over the new connection. -/
def createWebRTCConnection (streamPath serverUrl : String) (w : World) :
    Except String World :=
  let url := serverUrl ++ "/" ++ streamPath ++ "/whep"
  let pc : PeerConnection :=
    { connectionState := ConnectionState.new
      localDescription := none
      remoteDescription := none
      transceivers := [("video", "sendrecv")]
      url := url }
  let w1 : World :=
    { w with pcs := w.pcs ++ [pc], player := { w.player with webrtc := some w.pcs.length } }
  Except.ok { w1 with player := { w1.player with elements := { w1.player.elements with
      playerWrapHidden := false } } }

/-- The method `startPlay()`. -/
def startPlay (w : World) : World :=
  let streamPath := trim w.player.elements.streamPath
  let serverUrl := trim w.player.elements.serverUrl
  if streamPath = "" then
    updateStatus statusMessages.noUrl "error" w
  else
    let w1 : World :=
      { w with player := { w.player with connectionAttempts := w.player.connectionAttempts + 1 } }
    let w2 := updateStatus statusMessages.connecting "info" w1
    let w3 : World :=
      { w2 with player := { w2.player with
          elements := { w2.player.elements with
            playBtnDisabled := true
            stopBtnDisabled := false
            videoSrcObject := none }
          isTrackStarted := false } }
    match createWebRTCConnection streamPath serverUrl w3 with
    | Except.ok w4 => w4
    | Except.error message =>
      let w5 := updateStatus ("Connection failed: " ++ message) "error" w3
      { w5 with player := { w5.player with elements := { w5.player.elements with
          playBtnDisabled := false
          stopBtnDisabled := true } } }

/-- The method `stopPlay()`. -/
def stopPlay (w : World) : World :=
  let w1 : World :=
    match w.player.webrtc with
    | some i => { w with pcs := closePc i w.pcs, player := { w.player with webrtc := none } }
    | none => w
  let w2 : World :=
    { w1 with player := { w1.player with
        elements := { w1.player.elements with
          videoSrcObject := none
          playBtnDisabled := false
          stopBtnDisabled := true }
        isConnected := false
        isTrackStarted := false
        connectionAttempts := 0 } }
  let w3 := updateStatus statusMessages.ready "info" w2
  { w3 with player := { w3.player with elements := { w3.player.elements with
      playerWrapHidden := true
      connectionInfoHidden := true } } }

/-- The method `onStreamStarted()`. -/
def onStreamStarted (w : World) : World :=
  updateStatus "Stream started successfully" "success"
    { w with player := { w.player with isTrackStarted := true } }

/-- The delay `onStreamEmptied` passes to `setTimeout`. -/
def retryDelay : Nat := 4000

/-- The method `onStreamEmptied()`: it only arms a timer. -/
def onStreamEmptied (w : World) : World :=
  { w with timers := w.timers ++ [w.now + retryDelay] }

/-- The condition the timer callback tests. -/
def retryCondition (w : World) : Bool :=
  !w.player.isTrackStarted && decide (w.player.connectionAttempts < w.player.maxRetries) &&
    w.player.isConnected

/-- The arrow function `onStreamEmptied` hands to `setTimeout`. -/
def retryCallback (w : World) : World :=
  if retryCondition w then
    startPlay (updateStatus statusMessages.reconnecting "warning" w)
  else
    w

/-- What `this.webrtc.connectionState` evaluates to; `none` when `this.webrtc` is
`null` and the read throws. -/
def currentConnectionState (w : World) : Option ConnectionState :=
  match w.player.webrtc with
  | none => none
  | some i => w.pcs[i]?.map PeerConnection.connectionState

/-- The `onconnectionstatechange` handler.  It switches on the state of
`this.webrtc`, whichever connection dispatched the event.  With `this.webrtc`
`null` the read throws and nothing changes. -/
def onconnectionstatechange (w : World) : World :=
  match currentConnectionState w with
  | none => w
  | some ConnectionState.new => updateStatus statusMessages.connecting "info" w
  | some ConnectionState.connected =>
    let w1 := updateStatus statusMessages.loading "info" w
    { w1 with player := { w1.player with isConnected := true } }
  | some ConnectionState.disconnected =>
    let w1 := updateStatus statusMessages.disconnected "warning" w
    { w1 with player := { w1.player with isTrackStarted := false, isConnected := false } }
  | some ConnectionState.closed =>
    let w1 := updateStatus statusMessages.closed "warning" w
    { w1 with player := { w1.player with isTrackStarted := false, isConnected := false } }
  | some ConnectionState.failed =>
    let w1 := updateStatus statusMessages.failed "error" w
    { w1 with player := { w1.player with isTrackStarted := false, isConnected := false } }
  | some ConnectionState.connecting => w

/-- The `ontrack` handler; `stream` is `event.streams[0]`. -/
def ontrack (stream : Option Nat) (w : World) : World :=
  match stream with
  | some s =>
    updateStatus statusMessages.connected "success"
      { w with player := { w.player with elements := { w.player.elements with
          videoSrcObject := some s } } }
  | none => w

/-- The `onerror` handler. -/
def onerror (w : World) : World :=
  updateStatus "WebRTC connection error" "error" w

/-- How an awaited promise settles. -/
inductive Settled where
  /-- The promise of `createOffer()` is fulfilled with an offer. -/
  | offer (sdp : String)
  /-- The promise of `setLocalDescription`, `text` or `setRemoteDescription` is
  fulfilled. -/
  | done
  /-- The promise of `fetch` is fulfilled with a response. -/
  | response (r : Response)
  /-- The promise is rejected with an error. -/
  | rejected (message : String)
  deriving DecidableEq, Repr

/-- Where a run of the negotiation handler stands at the end of a turn. -/
inductive Progress where
  /-- Suspended at an `await`. -/
  | awaiting (t : Suspended)
  /-- Returned normally. -/
  | fulfilled
  /-- Threw the error with this message. -/
  | rejected (message : String)
  deriving DecidableEq, Repr

/-- The message of the `TypeError` thrown by a property access on `null`. -/
def typeError : String := "TypeError"

/-- The `catch` block of the negotiation handler, entered with the error
`message`: `this.webrtc.close()` on whatever `this.webrtc` is now, then
rethrow.  With `this.webrtc` `null` the call itself throws a `TypeError`, which
replaces the error caught. -/
def negotiationCatch (message : String) (w : World) : World × Progress :=
  match w.player.webrtc with
  | none => (w, Progress.rejected typeError)
  | some i => ({ w with pcs := closePc i w.pcs }, Progress.rejected message)

/-- The value of `this.webrtc.localDescription`; `none` when the read of `.sdp`
on it would throw. -/
def currentLocalDescription (w : World) : Option String :=
  match w.player.webrtc with
  | none => none
  | some i =>
    match w.pcs[i]? with
    | some pc => pc.localDescription
    | none => none

/-- The `onnegotiationneeded` handler from its start to its first `await`; `url`
is the variable its closure captured. -/
def onnegotiationneeded (url : String) (w : World) : World × Progress :=
  match w.player.webrtc with
  | none => negotiationCatch typeError w
  | some _ => (w, Progress.awaiting (Suspended.createOffer url))

/-- The `onnegotiationneeded` handler from the `await` it is suspended at, `t`,
to its next `await` or its end, when the awaited promise settles as `r`.  A
settlement that is not one of the awaited call leaves the run suspended. -/
def resume (t : Suspended) (r : Settled) (w : World) : World × Progress :=
  match t, r with
  | Suspended.createOffer url, Settled.offer sdp =>
    match w.player.webrtc with
    | none => negotiationCatch typeError w
    | some i => (w, Progress.awaiting (Suspended.setLocalDescription url i sdp))
  | Suspended.setLocalDescription url target offer, Settled.done =>
    let w1 : World :=
      { w with pcs := w.pcs.modify (fun pc => { pc with localDescription := some offer }) target }
    let username := w1.player.elements.username
    let password := w1.player.elements.password
    if username ≠ "" ∧ password ≠ "" ∧ btoaThrows (username ++ ":" ++ password) = true then
      negotiationCatch "InvalidCharacterError" w1
    else
      match currentLocalDescription w1 with
      | none => negotiationCatch typeError w1
      | some _ => (w1, Progress.awaiting (Suspended.fetch url))
  | Suspended.fetch url, Settled.response response =>
    if response.ok = false then
      negotiationCatch
        ("WHEP server error: " ++ toString response.status ++ " " ++ response.statusText) w
    else
      (w, Progress.awaiting (Suspended.text url response))
  | Suspended.text url response, Settled.done =>
    match w.player.webrtc with
    | none => negotiationCatch typeError w
    | some i => (w, Progress.awaiting (Suspended.setRemoteDescription url i response.body))
  | Suspended.setRemoteDescription url target answer, Settled.done =>
    let w1 : World :=
      { w with pcs := w.pcs.modify (fun pc => { pc with remoteDescription := some answer }) target }
    (updateConnectionInfo ("Connected to: " ++ url) w1, Progress.fulfilled)
  | _, Settled.rejected message => negotiationCatch message w
  | t, _ => (w, Progress.awaiting t)

/-- A run of the handler that has just started: it joins the suspended runs
unless it has already ended. -/
def spawn (p : World × Progress) : World :=
  match p.2 with
  | Progress.awaiting t => { p.1 with tasks := p.1.tasks ++ [t] }
  | _ => p.1

/-- The suspended run at position `k` has been resumed: it is suspended again, or
it has ended and leaves the suspended runs. -/
def settleAt (k : Nat) (p : World × Progress) : World :=
  match p.2 with
  | Progress.awaiting t => { p.1 with tasks := p.1.tasks.set k t }
  | _ => { p.1 with tasks := p.1.tasks.eraseIdx k }

/-! ## Events -/

/-- What the browser can do to the page between two turns of the event loop. -/
inductive Event where
  /-- A click on `playBtn`. -/
  | startPlay
  /-- A click on `stopBtn`. -/
  | stopPlay
  /-- The video element's `loadeddata`. -/
  | loadeddata
  /-- The video element's `emptied`. -/
  | emptied
  /-- Time passes. -/
  | elapse (ms : Nat)
  /-- The pending timer at position `k` fires. -/
  | timeout (k : Nat)
  /-- Connection `pc` moves to state `st` and dispatches `connectionstatechange`. -/
  | connectionstatechange (pc : Nat) (st : ConnectionState)
  /-- Connection `pc` dispatches `negotiationneeded`. -/
  | negotiationneeded (pc : Nat)
  /-- The promise the suspended run at position `k` awaits settles as `r`. -/
  | settle (k : Nat) (r : Settled)
  /-- Connection `pc` dispatches `track`. -/
  | track (pc : Nat) (stream : Option Nat)
  /-- Connection `pc` dispatches `error`. -/
  | error (pc : Nat)

/-- Connection `i` exists and is not closed.  A closed connection changes state
no more and dispatches no events. -/
def isLive (w : World) (i : Nat) : Bool :=
  match w.pcs[i]? with
  | some pc => decide (pc.connectionState ≠ ConnectionState.closed)
  | none => false

/-- The timer at position `k` is pending and due. -/
def timerDue (w : World) (k : Nat) : Bool :=
  match w.timers[k]? with
  | some due => decide (due ≤ w.now)
  | none => false

/-- One turn of the event loop.  An event that cannot happen in `w` (a timer that
is not due, an event dispatched by a closed or unknown connection, a settlement
for a run that is not suspended) changes nothing. -/
def step (w : World) : Event → World
  | Event.startPlay => startPlay w
  | Event.stopPlay => stopPlay w
  | Event.loadeddata => onStreamStarted w
  | Event.emptied => onStreamEmptied w
  | Event.elapse ms => { w with now := w.now + ms }
  | Event.timeout k =>
    if timerDue w k then retryCallback { w with timers := w.timers.eraseIdx k } else w
  | Event.connectionstatechange i st =>
    if isLive w i then
      onconnectionstatechange
        { w with pcs := w.pcs.modify (fun pc => { pc with connectionState := st }) i }
    else w
  | Event.negotiationneeded i =>
    if isLive w i then
      match w.pcs[i]? with
      | some pc => spawn (onnegotiationneeded pc.url w)
      | none => w
    else w
  | Event.settle k r =>
    match w.tasks[k]? with
    | some t => settleAt k (resume t r w)
    | none => w
  | Event.track i stream => if isLive w i then ontrack stream w else w
  | Event.error i => if isLive w i then onerror w else w

/-- The state after a sequence of events. -/
def run (w : World) : List Event → World
  | [] => w
  | e :: es => run (step w e) es

/-- The timer event `e` fires in `w` and its callback calls `startPlay`. -/
def invokesRetry (w : World) : Event → Bool
  | Event.timeout k => timerDue w k && retryCondition w
  | _ => false

/-- The number of timer firings along `es` that call `startPlay`. -/
def automaticReconnects (w : World) : List Event → Nat
  | [] => 0
  | e :: es => (if invokesRetry w e then 1 else 0) + automaticReconnects (step w e) es

/-- The state after the timer at position `k` has fired and its callback has
done nothing: the timer, if it was due, is gone, and nothing else has changed. -/
def timerRemoved (w : World) (k : Nat) : World :=
  if timerDue w k then { w with timers := w.timers.eraseIdx k } else w

/-- The event is an explicit `startPlay` or `stopPlay`. -/
def Event.isStartOrStop : Event → Bool
  | Event.startPlay => true
  | Event.stopPlay => true
  | _ => false

/-- The event is an explicit `startPlay`. -/
def Event.isStartPlay : Event → Bool
  | Event.startPlay => true
  | _ => false

/-- The event is a `connectionstatechange`. -/
def Event.isConnectionStateChange : Event → Bool
  | Event.connectionstatechange _ _ => true
  | _ => false

/-- The connection state the `onconnectionstatechange` handler reads from
`this.webrtc` when event `e` runs it; `none` when `e` does not run the handler
or the read throws. -/
def observedState (w : World) : Event → Option ConnectionState
  | Event.connectionstatechange i st =>
    if isLive w i then
      currentConnectionState
        { w with pcs := w.pcs.modify (fun pc => { pc with connectionState := st }) i }
    else none
  | _ => none

/-- The states on which the handler clears `isTrackStarted` and `isConnected`. -/
def ConnectionState.isLoss : ConnectionState → Bool
  | ConnectionState.disconnected => true
  | ConnectionState.failed => true
  | ConnectionState.closed => true
  | _ => false

/-- Event `e` makes the handler read `disconnected`, `failed` or `closed`. -/
def reportsLoss (w : World) (e : Event) : Bool :=
  match observedState w e with
  | some st => st.isLoss
  | none => false

/-- No event of the sequence makes the handler read `disconnected`, `failed` or
`closed`. -/
def noLossReported (w : World) : List Event → Bool
  | [] => true
  | e :: es => !reportsLoss w e && noLossReported (step w e) es

/-- The connection in `this.webrtc` is closed, or `this.webrtc` is `null`. -/
def currentClosedOrNull (w : World) : Bool :=
  match currentConnectionState w with
  | none => true
  | some st => decide (st = ConnectionState.closed)

/-- Event `e` makes the handler read `connected`. -/
def reportsConnected (w : World) (e : Event) : Bool :=
  decide (observedState w e = some ConnectionState.connected)

/-- The flag "the connection in `this.webrtc` has been read as `connected` since
it was stored there", after event `e`, from its value `b` before: a step that
stores another connection, or null, starts afresh. -/
def nextConnected (b : Bool) (w : World) (e : Event) : Bool :=
  if (step w e).player.webrtc = w.player.webrtc then b || reportsConnected w e else false

/-- The flag of `nextConnected` at the end of the sequence. -/
def connectedSinceStart (b : Bool) (w : World) : List Event → Bool
  | [] => b
  | e :: es => connectedSinceStart (nextConnected b w e) (step w e) es

/-- Every `loadeddata` of the sequence arrives while the flag of `nextConnected`
is set. -/
def framesAfterConnected (b : Bool) (w : World) : List Event → Bool
  | [] => true
  | e :: es =>
    (match e with
      | Event.loadeddata => b
      | _ => true) &&
    framesAfterConnected (nextConnected b w e) (step w e) es

/-- The response of a signaling server that answers 401. -/
def unauthorized : Response where
  status := 401
  statusText := "Unauthorized"
  body := ""

/-- A negotiation on connection `pc`, suspended run `k`, up to the POST. -/
def negotiateUntilFetch (pc k : Nat) : List Event :=
  [Event.negotiationneeded pc, Event.settle k (Settled.offer "v=0"),
   Event.settle k Settled.done]

/-- The indices of the connections that are not closed. -/
def liveConnections (w : World) : List Nat :=
  (List.range w.pcs.length).filter (isLive w)

/-! ## Example pages and event sequences -/

/-- A page whose stream path input holds `cam1`. -/
def pageCam1 : Elements where
  streamPath := "cam1"
  serverUrl := "http://localhost:8889"
  username := ""
  password := ""
  playBtnDisabled := false
  stopBtnDisabled := true
  videoSrcObject := none
  statusText := "Ready to connect"
  statusDisplayClassName := "status-display info"
  statusDisplayHidden := false
  connectionDetails := ""
  connectionInfoHidden := true
  playerWrapHidden := true

/-- A page whose stream path input holds only blanks. -/
def pageBlank : Elements :=
  { pageCam1 with streamPath := " \t " }

/-- The events of one automatic reconnect on connection 0. -/
def oneReconnect : List Event :=
  [Event.connectionstatechange 0 ConnectionState.connected, Event.emptied,
   Event.elapse 4000, Event.timeout 0]

/-- The state in which the first retry timer of `oneReconnect` is due. -/
def beforeFirstRetry : World :=
  run (startPlay (constructor pageCam1))
    [Event.connectionstatechange 0 ConnectionState.connected, Event.emptied, Event.elapse 4000]

/-- A retry is scheduled on the first session, then the user stops and starts
again, and the new session connects before the old timer is due. -/
def staleTimerAfterStop : List Event :=
  [Event.connectionstatechange 0 ConnectionState.connected, Event.emptied,
   Event.stopPlay, Event.startPlay,
   Event.connectionstatechange 1 ConnectionState.connected, Event.elapse 4000]

/-- Two retries are scheduled on the first session and both come due. -/
def staleTimerAfterRetry : List Event :=
  [Event.connectionstatechange 0 ConnectionState.connected, Event.emptied, Event.emptied,
   Event.elapse 4000, Event.timeout 0]

/-- The stream starts, the transport drops and recovers, then the stream is
emptied and the retry delay passes. -/
def dropAfterFirstFrames : List Event :=
  [Event.connectionstatechange 0 ConnectionState.connected, Event.loadeddata,
   Event.connectionstatechange 0 ConnectionState.disconnected,
   Event.connectionstatechange 0 ConnectionState.connected,
   Event.emptied, Event.elapse 4000]

/-- The stream is emptied after the first frames and the retry delay passes,
with the transport reporting `connected` again in between. -/
def emptiedAfterFirstFrames : List Event :=
  [Event.connectionstatechange 0 ConnectionState.connecting,
   Event.connectionstatechange 0 ConnectionState.connected,
   Event.emptied, Event.elapse 4000, Event.timeout 0]

/-- What follows a failed transport in the examples: the stream is emptied, the
user presses play, and the timers fire. -/
def afterFailed : List Event :=
  [Event.emptied, Event.startPlay, Event.elapse 4000, Event.timeout 0, Event.timeout 0]

/-- An automatic reconnect whose signaling POST is answered 401, after which the
stream is emptied and the retry delay passes. -/
def unauthorizedReconnect : List Event :=
  oneReconnect ++ negotiateUntilFetch 1 0 ++
    [Event.settle 0 (Settled.response unauthorized), Event.emptied, Event.elapse 4000]

/-- The orphaned connection 0 reports `failed` after an automatic reconnect; then
the stream is emptied and the retry delay passes. -/
def staleFailedReport : List Event :=
  oneReconnect ++
    [Event.connectionstatechange 0 ConnectionState.failed, Event.emptied, Event.elapse 4000]

/-- A first play request whose signaling POST is in flight when the user presses
stop. -/
def stopDuringFetch : List Event :=
  negotiateUntilFetch 0 0 ++ [Event.stopPlay]

/-- A first play request whose signaling POST is answered 401 after the user has
pressed stop and play again. -/
def restartDuringFetch : List Event :=
  negotiateUntilFetch 0 0 ++
    [Event.stopPlay, Event.startPlay, Event.settle 0 (Settled.response unauthorized)]

/-- A play request whose stream starts after the transport connected. -/
def playUntilFirstFrames : List Event :=
  [Event.startPlay, Event.connectionstatechange 0 ConnectionState.connected, Event.loadeddata]

/-! ## Basic facts -/

theorem trim_eq_empty_of_blank (s : String) (h : ∀ c ∈ s.data, isWhiteSpace c = true) :
    trim s = "" := by
  have h1 : s.data.dropWhile isWhiteSpace = [] := List.dropWhile_eq_nil_iff.mpr h
  simp [trim, h1]

theorem isLive_closePc_self (w : World) (p : Player) (now : Nat) (timers : List Nat)
    (tasks : List Suspended) (i : Nat) :
    isLive { player := p, pcs := closePc i w.pcs, now := now, timers := timers, tasks := tasks }
      i = false := by
  unfold isLive closePc
  simp only [List.getElem?_modify]
  cases w.pcs[i]? <;> simp

theorem startPlay_of_blank (w : World) (h : trim w.player.elements.streamPath = "") :
    startPlay w = updateStatus statusMessages.noUrl "error" w := by
  simp [startPlay, h]

theorem startPlay_of_nonblank (w : World) (h : trim w.player.elements.streamPath ≠ "") :
    startPlay w =
      { player :=
          { webrtc := some w.pcs.length
            connectionAttempts := w.player.connectionAttempts + 1
            maxRetries := w.player.maxRetries
            isConnected := w.player.isConnected
            isTrackStarted := false
            elements := { w.player.elements with
              statusText := statusMessages.connecting
              statusDisplayClassName := "status-display info"
              statusDisplayHidden := false
              playBtnDisabled := true
              stopBtnDisabled := false
              videoSrcObject := none
              playerWrapHidden := false } }
        pcs := w.pcs ++
          [{ connectionState := ConnectionState.new
             localDescription := none
             remoteDescription := none
             transceivers := [("video", "sendrecv")]
             url := trim w.player.elements.serverUrl ++ "/" ++
               trim w.player.elements.streamPath ++ "/whep" }]
        now := w.now
        timers := w.timers
        tasks := w.tasks } := by
  simp [startPlay, h, createWebRTCConnection, updateStatus]

theorem startPlay_maxRetries (w : World) :
    (startPlay w).player.maxRetries = w.player.maxRetries := by
  by_cases h : trim w.player.elements.streamPath = ""
  · rw [startPlay_of_blank w h]; rfl
  · rw [startPlay_of_nonblank w h]

theorem startPlay_streamPath (w : World) :
    (startPlay w).player.elements.streamPath = w.player.elements.streamPath := by
  by_cases h : trim w.player.elements.streamPath = ""
  · rw [startPlay_of_blank w h]; rfl
  · rw [startPlay_of_nonblank w h]

theorem startPlay_isConnected (w : World) :
    (startPlay w).player.isConnected = w.player.isConnected := by
  by_cases h : trim w.player.elements.streamPath = ""
  · rw [startPlay_of_blank w h]; rfl
  · rw [startPlay_of_nonblank w h]

theorem onconnectionstatechange_frame (w : World) :
    (onconnectionstatechange w).player.maxRetries = w.player.maxRetries ∧
    (onconnectionstatechange w).player.connectionAttempts = w.player.connectionAttempts ∧
    (onconnectionstatechange w).player.webrtc = w.player.webrtc ∧
    (onconnectionstatechange w).player.elements.streamPath = w.player.elements.streamPath ∧
    (onconnectionstatechange w).pcs = w.pcs ∧
    (onconnectionstatechange w).timers = w.timers ∧
    (onconnectionstatechange w).now = w.now := by
  unfold onconnectionstatechange
  split <;> simp [updateStatus]

theorem negotiationCatch_frame (message : String) (w : World) :
    (negotiationCatch message w).1.player = w.player ∧
    (negotiationCatch message w).1.timers = w.timers ∧
    (negotiationCatch message w).1.now = w.now := by
  unfold negotiationCatch
  split <;> exact ⟨rfl, rfl, rfl⟩

theorem onnegotiationneeded_frame (url : String) (w : World) :
    (onnegotiationneeded url w).1.player = w.player ∧
    (onnegotiationneeded url w).1.timers = w.timers ∧
    (onnegotiationneeded url w).1.now = w.now := by
  unfold onnegotiationneeded
  split
  · exact negotiationCatch_frame _ w
  · exact ⟨rfl, rfl, rfl⟩

/-- Resuming the negotiation handler changes no field of the player but the
connection details shown on the page. -/
theorem resume_frame (t : Suspended) (r : Settled) (w : World) :
    (resume t r w).1.player.maxRetries = w.player.maxRetries ∧
    (resume t r w).1.player.connectionAttempts = w.player.connectionAttempts ∧
    (resume t r w).1.player.webrtc = w.player.webrtc ∧
    (resume t r w).1.player.isConnected = w.player.isConnected ∧
    (resume t r w).1.player.isTrackStarted = w.player.isTrackStarted ∧
    (resume t r w).1.player.elements.streamPath = w.player.elements.streamPath ∧
    (resume t r w).1.timers = w.timers ∧
    (resume t r w).1.now = w.now := by
  have hcatch : ∀ (m : String) (v : World), v.player = w.player → v.timers = w.timers →
      v.now = w.now →
      (negotiationCatch m v).1.player.maxRetries = w.player.maxRetries ∧
      (negotiationCatch m v).1.player.connectionAttempts = w.player.connectionAttempts ∧
      (negotiationCatch m v).1.player.webrtc = w.player.webrtc ∧
      (negotiationCatch m v).1.player.isConnected = w.player.isConnected ∧
      (negotiationCatch m v).1.player.isTrackStarted = w.player.isTrackStarted ∧
      (negotiationCatch m v).1.player.elements.streamPath = w.player.elements.streamPath ∧
      (negotiationCatch m v).1.timers = w.timers ∧
      (negotiationCatch m v).1.now = w.now := by
    intro m v hp ht hn
    have h := negotiationCatch_frame m v
    rw [h.1, h.2.1, h.2.2, hp, ht, hn]
    exact ⟨rfl, rfl, rfl, rfl, rfl, rfl, rfl, rfl⟩
  unfold resume
  split
  · split
    · exact hcatch _ w rfl rfl rfl
    · exact ⟨rfl, rfl, rfl, rfl, rfl, rfl, rfl, rfl⟩
  · dsimp only
    split
    · exact hcatch _ _ rfl rfl rfl
    · split
      · exact hcatch _ _ rfl rfl rfl
      · exact ⟨rfl, rfl, rfl, rfl, rfl, rfl, rfl, rfl⟩
  · split
    · exact hcatch _ w rfl rfl rfl
    · exact ⟨rfl, rfl, rfl, rfl, rfl, rfl, rfl, rfl⟩
  · split
    · exact hcatch _ w rfl rfl rfl
    · exact ⟨rfl, rfl, rfl, rfl, rfl, rfl, rfl, rfl⟩
  · exact ⟨rfl, rfl, rfl, rfl, rfl, rfl, rfl, rfl⟩
  · exact hcatch _ w rfl rfl rfl
  · exact ⟨rfl, rfl, rfl, rfl, rfl, rfl, rfl, rfl⟩

theorem spawn_frame (p : World × Progress) :
    (spawn p).player = p.1.player ∧ (spawn p).pcs = p.1.pcs ∧
    (spawn p).timers = p.1.timers ∧ (spawn p).now = p.1.now := by
  unfold spawn
  split <;> exact ⟨rfl, rfl, rfl, rfl⟩

theorem settleAt_frame (k : Nat) (p : World × Progress) :
    (settleAt k p).player = p.1.player ∧ (settleAt k p).pcs = p.1.pcs ∧
    (settleAt k p).timers = p.1.timers ∧ (settleAt k p).now = p.1.now := by
  unfold settleAt
  split <;> exact ⟨rfl, rfl, rfl, rfl⟩

/-- A `negotiationneeded` event changes no field of the player. -/
theorem step_negotiationneeded_frame (w : World) (i : Nat) :
    (step w (Event.negotiationneeded i)).player.maxRetries = w.player.maxRetries ∧
    (step w (Event.negotiationneeded i)).player.connectionAttempts =
      w.player.connectionAttempts ∧
    (step w (Event.negotiationneeded i)).player.webrtc = w.player.webrtc ∧
    (step w (Event.negotiationneeded i)).player.isConnected = w.player.isConnected ∧
    (step w (Event.negotiationneeded i)).player.isTrackStarted = w.player.isTrackStarted ∧
    (step w (Event.negotiationneeded i)).player.elements.streamPath =
      w.player.elements.streamPath ∧
    (step w (Event.negotiationneeded i)).timers = w.timers ∧
    (step w (Event.negotiationneeded i)).now = w.now := by
  simp only [step]
  split
  · split
    · rename_i pc _
      have h1 := spawn_frame (onnegotiationneeded pc.url w)
      have h2 := onnegotiationneeded_frame pc.url w
      rw [h1.1, h1.2.2.1, h1.2.2.2, h2.1, h2.2.1, h2.2.2]
      exact ⟨rfl, rfl, rfl, rfl, rfl, rfl, rfl, rfl⟩
    · exact ⟨rfl, rfl, rfl, rfl, rfl, rfl, rfl, rfl⟩
  · exact ⟨rfl, rfl, rfl, rfl, rfl, rfl, rfl, rfl⟩

/-- The settlement of an awaited promise changes no field of the player but the
connection details shown on the page. -/
theorem step_settle_frame (w : World) (k : Nat) (r : Settled) :
    (step w (Event.settle k r)).player.maxRetries = w.player.maxRetries ∧
    (step w (Event.settle k r)).player.connectionAttempts = w.player.connectionAttempts ∧
    (step w (Event.settle k r)).player.webrtc = w.player.webrtc ∧
    (step w (Event.settle k r)).player.isConnected = w.player.isConnected ∧
    (step w (Event.settle k r)).player.isTrackStarted = w.player.isTrackStarted ∧
    (step w (Event.settle k r)).player.elements.streamPath = w.player.elements.streamPath ∧
    (step w (Event.settle k r)).timers = w.timers ∧
    (step w (Event.settle k r)).now = w.now := by
  simp only [step]
  split
  · rename_i t _
    have h1 := settleAt_frame k (resume t r w)
    rw [h1.1, h1.2.2.1, h1.2.2.2]
    exact resume_frame t r w
  · exact ⟨rfl, rfl, rfl, rfl, rfl, rfl, rfl, rfl⟩

theorem ontrack_frame (stream : Option Nat) (w : World) :
    (ontrack stream w).player.maxRetries = w.player.maxRetries ∧
    (ontrack stream w).player.connectionAttempts = w.player.connectionAttempts ∧
    (ontrack stream w).player.webrtc = w.player.webrtc ∧
    (ontrack stream w).player.isConnected = w.player.isConnected ∧
    (ontrack stream w).player.isTrackStarted = w.player.isTrackStarted ∧
    (ontrack stream w).player.elements.streamPath = w.player.elements.streamPath ∧
    (ontrack stream w).pcs = w.pcs ∧
    (ontrack stream w).timers = w.timers ∧
    (ontrack stream w).now = w.now := by
  cases stream <;> simp [ontrack, updateStatus]

theorem retryCallback_of_true (w : World) (h : retryCondition w = true) :
    retryCallback w = startPlay (updateStatus statusMessages.reconnecting "warning" w) := by
  simp [retryCallback, h]

theorem retryCallback_of_false (w : World) (h : retryCondition w = false) :
    retryCallback w = w := by
  simp [retryCallback, h]

theorem retryCallback_maxRetries (w : World) :
    (retryCallback w).player.maxRetries = w.player.maxRetries := by
  unfold retryCallback
  split
  · rw [startPlay_maxRetries]; rfl
  · rfl

theorem retryCallback_streamPath (w : World) :
    (retryCallback w).player.elements.streamPath = w.player.elements.streamPath := by
  unfold retryCallback
  split
  · rw [startPlay_streamPath]; rfl
  · rfl

theorem retryCallback_isConnected (w : World) :
    (retryCallback w).player.isConnected = w.player.isConnected := by
  unfold retryCallback
  split
  · rw [startPlay_isConnected]; rfl
  · rfl

theorem step_maxRetries (w : World) (e : Event) :
    (step w e).player.maxRetries = w.player.maxRetries := by
  cases e with
  | startPlay => exact startPlay_maxRetries w
  | stopPlay => simp [step, stopPlay, updateStatus]; split <;> rfl
  | loadeddata => rfl
  | emptied => rfl
  | elapse ms => rfl
  | timeout k =>
    simp only [step]
    split
    · rw [retryCallback_maxRetries]
    · rfl
  | connectionstatechange i st =>
    simp only [step]
    split
    · rw [(onconnectionstatechange_frame _).1]
    · rfl
  | negotiationneeded i => exact (step_negotiationneeded_frame w i).1
  | settle k r => exact (step_settle_frame w k r).1
  | track i stream =>
    simp only [step]
    split
    · rw [(ontrack_frame _ _).1]
    · rfl
  | error i =>
    simp only [step]
    split <;> rfl

theorem step_streamPath (w : World) (e : Event) :
    (step w e).player.elements.streamPath = w.player.elements.streamPath := by
  cases e with
  | startPlay => exact startPlay_streamPath w
  | stopPlay => simp [step, stopPlay, updateStatus]; split <;> rfl
  | loadeddata => rfl
  | emptied => rfl
  | elapse ms => rfl
  | timeout k =>
    simp only [step]
    split
    · rw [retryCallback_streamPath]
    · rfl
  | connectionstatechange i st =>
    simp only [step]
    split
    · rw [(onconnectionstatechange_frame _).2.2.2.1]
    · rfl
  | negotiationneeded i => exact (step_negotiationneeded_frame w i).2.2.2.2.2.1
  | settle k r => exact (step_settle_frame w k r).2.2.2.2.2.1
  | track i stream =>
    simp only [step]
    split
    · rw [(ontrack_frame _ _).2.2.2.2.2.1]
    · rfl
  | error i =>
    simp only [step]
    split <;> rfl

/-- Apart from explicit start and stop, only a retrying timer changes
`connectionAttempts`, and it adds one. -/
theorem step_connectionAttempts (w : World) (e : Event)
    (hpath : trim w.player.elements.streamPath ≠ "") (he : e.isStartOrStop = false) :
    (step w e).player.connectionAttempts =
      w.player.connectionAttempts + (if invokesRetry w e then 1 else 0) := by
  cases e with
  | startPlay => simp [Event.isStartOrStop] at he
  | stopPlay => simp [Event.isStartOrStop] at he
  | loadeddata => rfl
  | emptied => rfl
  | elapse ms => rfl
  | timeout k =>
    simp only [step, invokesRetry]
    by_cases hd : timerDue w k = true
    · by_cases hc : retryCondition w = true
      · have hc2 : retryCondition { w with timers := w.timers.eraseIdx k } = true := hc
        rw [if_pos hd, retryCallback_of_true _ hc2, startPlay_of_nonblank _ (by exact hpath)]
        simp [hd, hc, updateStatus]
      · have hc1 : retryCondition w = false := by simpa using hc
        have hc2 : retryCondition { w with timers := w.timers.eraseIdx k } = false := hc1
        rw [if_pos hd, retryCallback_of_false _ hc2]
        simp [hc1]
    · rw [if_neg hd]
      simp [hd]
  | connectionstatechange i st =>
    simp only [step, invokesRetry]
    split
    · rw [(onconnectionstatechange_frame _).2.1]; simp
    · simp
  | negotiationneeded i =>
    rw [(step_negotiationneeded_frame w i).2.1]; simp [invokesRetry]
  | settle k r =>
    rw [(step_settle_frame w k r).2.1]; simp [invokesRetry]
  | track i stream =>
    simp only [step, invokesRetry]
    split
    · rw [(ontrack_frame _ _).2.1]; simp
    · simp
  | error i =>
    simp only [step, invokesRetry]
    split <;> simp [onerror, updateStatus]

theorem run_append (w : World) (es fs : List Event) :
    run w (es ++ fs) = run (run w es) fs := by
  induction es generalizing w with
  | nil => rfl
  | cons e es ih => exact ih (step w e)

theorem invokesRetry_lt (w : World) (e : Event) (h : invokesRetry w e = true) :
    w.player.connectionAttempts < w.player.maxRetries := by
  cases e <;> simp [invokesRetry, retryCondition] at h
  exact h.2.1.2

/-- Along events without explicit start or stop, `connectionAttempts` counts the
automatic reconnects and stays within `maxRetries`. -/
theorem run_connectionAttempts (w : World) (es : List Event)
    (hpath : trim w.player.elements.streamPath ≠ "")
    (hes : ∀ ev ∈ es, ev.isStartOrStop = false)
    (hle : w.player.connectionAttempts ≤ w.player.maxRetries) :
    (run w es).player.connectionAttempts =
      w.player.connectionAttempts + automaticReconnects w es ∧
    (run w es).player.connectionAttempts ≤ w.player.maxRetries ∧
    (run w es).player.maxRetries = w.player.maxRetries ∧
    (run w es).player.elements.streamPath = w.player.elements.streamPath := by
  induction es generalizing w with
  | nil => exact ⟨rfl, hle, rfl, rfl⟩
  | cons e es ih =>
    have he : e.isStartOrStop = false := hes e (List.mem_cons_self _ _)
    have hat := step_connectionAttempts w e hpath he
    have hmr := step_maxRetries w e
    have hsp := step_streamPath w e
    have hpath2 : trim (step w e).player.elements.streamPath ≠ "" := by rw [hsp]; exact hpath
    have hle2 : (step w e).player.connectionAttempts ≤ (step w e).player.maxRetries := by
      rw [hat, hmr]
      by_cases hi : invokesRetry w e = true
      · have := invokesRetry_lt w e hi
        simp [hi]; omega
      · simp [hi]; exact hle
    have h := ih (step w e) hpath2 (fun ev hev => hes ev (List.mem_cons_of_mem _ hev)) hle2
    refine ⟨?_, ?_, ?_, ?_⟩
    · show (run (step w e) es).player.connectionAttempts = _
      rw [h.1, hat]
      simp only [automaticReconnects]
      omega
    · show (run (step w e) es).player.connectionAttempts ≤ _
      rw [← hmr]; exact h.2.1
    · show (run (step w e) es).player.maxRetries = _
      rw [h.2.2.1, hmr]
    · show (run (step w e) es).player.elements.streamPath = _
      rw [h.2.2.2, hsp]

theorem invokesRetry_of_not_connected (w : World) (e : Event)
    (h : w.player.isConnected = false) : invokesRetry w e = false := by
  cases e <;> simp [invokesRetry, retryCondition, h]

theorem invokesRetry_of_trackStarted (w : World) (e : Event)
    (h : w.player.isTrackStarted = true) : invokesRetry w e = false := by
  cases e <;> simp [invokesRetry, retryCondition, h]

theorem retryCondition_of_not_connected (w : World)
    (h : w.player.isConnected = false) : retryCondition w = false := by
  simp [retryCondition, h]

theorem onconnectionstatechange_of_null (w : World) (h : w.player.webrtc = none) :
    onconnectionstatechange w = w := by
  simp [onconnectionstatechange, currentConnectionState, h]

/-- With `webrtc` null and `isConnected` false, nothing but an explicit
`startPlay` changes either, and no timer calls `startPlay`. -/
theorem step_stopped (w : World) (e : Event) (he : e.isStartPlay = false)
    (hc : w.player.isConnected = false) (hn : w.player.webrtc = none) :
    (step w e).player.isConnected = false ∧ (step w e).player.webrtc = none := by
  cases e with
  | startPlay => simp [Event.isStartPlay] at he
  | stopPlay => simp [step, stopPlay, updateStatus, hn]
  | loadeddata => exact ⟨hc, hn⟩
  | emptied => exact ⟨hc, hn⟩
  | elapse ms => exact ⟨hc, hn⟩
  | timeout k =>
    simp only [step]
    split
    · rw [retryCallback_of_false _ (by exact retryCondition_of_not_connected _ hc)]
      exact ⟨hc, hn⟩
    · exact ⟨hc, hn⟩
  | connectionstatechange i st =>
    simp only [step]
    split
    · rw [onconnectionstatechange_of_null _ (by exact hn)]
      exact ⟨hc, hn⟩
    · exact ⟨hc, hn⟩
  | negotiationneeded i =>
    rw [(step_negotiationneeded_frame w i).2.2.2.1, (step_negotiationneeded_frame w i).2.2.1]
    exact ⟨hc, hn⟩
  | settle k r =>
    rw [(step_settle_frame w k r).2.2.2.1, (step_settle_frame w k r).2.2.1]
    exact ⟨hc, hn⟩
  | track i stream =>
    simp only [step]
    split
    · rw [(ontrack_frame _ _).2.2.2.1, (ontrack_frame _ _).2.2.1]
      exact ⟨hc, hn⟩
    · exact ⟨hc, hn⟩
  | error i =>
    simp only [step]
    split
    · exact ⟨hc, hn⟩
    · exact ⟨hc, hn⟩

theorem automaticReconnects_stopped (w : World) (es : List Event)
    (hes : ∀ ev ∈ es, ev.isStartPlay = false)
    (hc : w.player.isConnected = false) (hn : w.player.webrtc = none) :
    automaticReconnects w es = 0 ∧ (run w es).player.isConnected = false ∧
      (run w es).player.webrtc = none := by
  induction es generalizing w with
  | nil => exact ⟨rfl, hc, hn⟩
  | cons e es ih =>
    have hs := step_stopped w e (hes e (List.mem_cons_self _ _)) hc hn
    have h := ih (step w e) (fun ev hev => hes ev (List.mem_cons_of_mem _ hev)) hs.1 hs.2
    refine ⟨?_, h.2.1, h.2.2⟩
    simp only [automaticReconnects]
    rw [h.1, invokesRetry_of_not_connected w e hc]
    rfl

theorem stopPlay_stopped (w : World) :
    (stopPlay w).player.webrtc = none ∧ (stopPlay w).player.isConnected = false ∧
      (stopPlay w).timers = w.timers := by
  cases hw : w.player.webrtc <;> simp [stopPlay, updateStatus, hw]

/-- While the handler reads no loss, only explicit start and stop clear
`isTrackStarted`. -/
theorem step_trackStarted (w : World) (e : Event) (he : e.isStartOrStop = false)
    (hl : reportsLoss w e = false) (ht : w.player.isTrackStarted = true) :
    (step w e).player.isTrackStarted = true := by
  cases e with
  | startPlay => simp [Event.isStartOrStop] at he
  | stopPlay => simp [Event.isStartOrStop] at he
  | loadeddata => rfl
  | emptied => exact ht
  | elapse ms => exact ht
  | timeout k =>
    have hc : retryCondition { w with timers := w.timers.eraseIdx k } = false := by
      simp [retryCondition, ht]
    simp only [step]
    split
    · rw [retryCallback_of_false _ hc]; exact ht
    · exact ht
  | connectionstatechange i st =>
    simp only [step]
    split
    · rename_i hlive
      simp only [reportsLoss, observedState, hlive, if_true] at hl
      unfold onconnectionstatechange
      split <;> rename_i hs <;> simp only [hs, ConnectionState.isLoss] at hl <;>
        first
        | exact ht
        | exact absurd hl (by decide)
    · exact ht
  | negotiationneeded i => rw [(step_negotiationneeded_frame w i).2.2.2.2.1]; exact ht
  | settle k r => rw [(step_settle_frame w k r).2.2.2.2.1]; exact ht
  | track i stream =>
    simp only [step]
    split
    · rw [(ontrack_frame _ _).2.2.2.2.1]; exact ht
    · exact ht
  | error i =>
    simp only [step]
    split
    · exact ht
    · exact ht

/-- Apart from `connectionstatechange`, no event sets `isConnected`. -/
theorem step_not_connected (w : World) (e : Event) (he : e.isConnectionStateChange = false)
    (hc : w.player.isConnected = false) : (step w e).player.isConnected = false := by
  cases e with
  | startPlay => simp only [step]; rw [startPlay_isConnected]; exact hc
  | stopPlay => exact (stopPlay_stopped w).2.1
  | loadeddata => exact hc
  | emptied => exact hc
  | elapse ms => exact hc
  | timeout k =>
    simp only [step]
    split
    · rw [retryCallback_isConnected]; exact hc
    · exact hc
  | connectionstatechange i st => simp [Event.isConnectionStateChange] at he
  | negotiationneeded i => rw [(step_negotiationneeded_frame w i).2.2.2.1]; exact hc
  | settle k r => rw [(step_settle_frame w k r).2.2.2.1]; exact hc
  | track i stream =>
    simp only [step]
    split
    · rw [(ontrack_frame _ _).2.2.2.1]; exact hc
    · exact hc
  | error i =>
    simp only [step]
    split
    · exact hc
    · exact hc

theorem automaticReconnects_not_connected (w : World) (es : List Event)
    (hes : ∀ ev ∈ es, ev.isConnectionStateChange = false)
    (hc : w.player.isConnected = false) :
    automaticReconnects w es = 0 ∧ (run w es).player.isConnected = false := by
  induction es generalizing w with
  | nil => exact ⟨rfl, hc⟩
  | cons e es ih =>
    have hs := step_not_connected w e (hes e (List.mem_cons_self _ _)) hc
    have h := ih (step w e) (fun ev hev => hes ev (List.mem_cons_of_mem _ hev)) hs
    refine ⟨?_, h.2⟩
    simp only [automaticReconnects]
    rw [h.1, invokesRetry_of_not_connected w e hc]
    rfl

theorem automaticReconnects_trackStarted (w : World) (es : List Event)
    (hes : ∀ ev ∈ es, ev.isStartOrStop = false)
    (hl : noLossReported w es = true) (ht : w.player.isTrackStarted = true) :
    automaticReconnects w es = 0 ∧ (run w es).player.isTrackStarted = true := by
  induction es generalizing w with
  | nil => exact ⟨rfl, ht⟩
  | cons e es ih =>
    simp only [noLossReported, Bool.and_eq_true, Bool.not_eq_true'] at hl
    have hs := step_trackStarted w e (hes e (List.mem_cons_self _ _)) hl.1 ht
    have h := ih (step w e) (fun ev hev => hes ev (List.mem_cons_of_mem _ hev)) hl.2 hs
    refine ⟨?_, h.2⟩
    simp only [automaticReconnects]
    rw [h.1, invokesRetry_of_trackStarted w e ht]
    rfl

/-- Changing a connection in a way that keeps a closed connection closed keeps
the current connection closed or null. -/
theorem currentClosedOrNull_modify (w : World) (f : PeerConnection → PeerConnection) (k : Nat)
    (hf : ∀ pc, pc.connectionState = ConnectionState.closed →
      (f pc).connectionState = ConnectionState.closed)
    (h : currentClosedOrNull w = true) :
    currentClosedOrNull { w with pcs := w.pcs.modify f k } = true := by
  unfold currentClosedOrNull currentConnectionState at *
  cases hw : w.player.webrtc with
  | none => simp
  | some j =>
    simp only [hw] at h
    simp only [List.getElem?_modify]
    cases hp : w.pcs[j]? with
    | none => simp
    | some pc =>
      simp only [hp, Option.map_some', decide_eq_true_eq] at h
      by_cases hkj : k = j
      · simp [hkj, hf pc h]
      · simp [hkj, h]

/-- A state change of a live connection is not a change of the current
connection when that one is closed or null. -/
theorem currentClosedOrNull_of_live (w : World) (i : Nat) (st : ConnectionState)
    (hlive : isLive w i = true) (h : currentClosedOrNull w = true) :
    currentClosedOrNull
      { w with pcs := w.pcs.modify (fun pc => { pc with connectionState := st }) i } = true := by
  unfold currentClosedOrNull currentConnectionState isLive at *
  cases hw : w.player.webrtc with
  | none => simp
  | some j =>
    simp only [hw] at h
    simp only [List.getElem?_modify]
    cases hp : w.pcs[j]? with
    | none => simp
    | some pc =>
      simp only [hp, Option.map_some', decide_eq_true_eq] at h
      by_cases hij : i = j
      · subst hij
        simp [hp, h] at hlive
      · simp [hij, h]

theorem onconnectionstatechange_closedOrNull (w : World)
    (hc : w.player.isConnected = false) (h : currentClosedOrNull w = true) :
    (onconnectionstatechange w).player.isConnected = false ∧
      currentClosedOrNull (onconnectionstatechange w) = true := by
  unfold currentClosedOrNull at h
  unfold onconnectionstatechange
  cases hs : currentConnectionState w with
  | none => simp only [hs]; exact ⟨hc, by simp [currentClosedOrNull, hs]⟩
  | some st =>
    simp only [hs, decide_eq_true_eq] at h
    subst h
    refine ⟨rfl, ?_⟩
    have : currentConnectionState
        (let w1 := updateStatus statusMessages.closed "warning" w
         { w1 with player := { w1.player with isTrackStarted := false, isConnected := false } }) =
        currentConnectionState w := rfl
    simp only [currentClosedOrNull]
    rw [this, hs]
    rfl

theorem currentClosedOrNull_congr (v w : World) (hp : v.player = w.player)
    (hpcs : v.pcs = w.pcs) : currentClosedOrNull v = currentClosedOrNull w := by
  simp [currentClosedOrNull, currentConnectionState, hp, hpcs]

theorem negotiationCatch_closedOrNull (message : String) (w : World)
    (h : currentClosedOrNull w = true) :
    currentClosedOrNull (negotiationCatch message w).1 = true := by
  unfold negotiationCatch
  split
  · exact h
  · exact currentClosedOrNull_modify w _ _ (fun _ _ => rfl) h

theorem resume_closedOrNull (t : Suspended) (r : Settled) (w : World)
    (h : currentClosedOrNull w = true) : currentClosedOrNull (resume t r w).1 = true := by
  have hlocal : ∀ (k : Nat) (d : Option String), currentClosedOrNull
      { w with pcs := w.pcs.modify (fun pc => { pc with localDescription := d }) k } = true :=
    fun k d => currentClosedOrNull_modify w _ k (fun _ hpc => hpc) h
  have hremote : ∀ (k : Nat) (d : Option String), currentClosedOrNull
      { w with pcs := w.pcs.modify (fun pc => { pc with remoteDescription := d }) k } = true :=
    fun k d => currentClosedOrNull_modify w _ k (fun _ hpc => hpc) h
  unfold resume
  split
  · split
    · exact negotiationCatch_closedOrNull _ w h
    · exact h
  · dsimp only
    split
    · exact negotiationCatch_closedOrNull _ _ (hlocal _ _)
    · split
      · exact negotiationCatch_closedOrNull _ _ (hlocal _ _)
      · exact hlocal _ _
  · split
    · exact negotiationCatch_closedOrNull _ w h
    · exact h
  · split
    · exact negotiationCatch_closedOrNull _ w h
    · exact h
  · exact hremote _ _
  · exact negotiationCatch_closedOrNull _ w h
  · exact h

theorem step_negotiationneeded_closedOrNull (w : World) (i : Nat)
    (h : currentClosedOrNull w = true) :
    currentClosedOrNull (step w (Event.negotiationneeded i)) = true := by
  simp only [step]
  split
  · split
    · rename_i pc _
      rw [currentClosedOrNull_congr _ _ (spawn_frame _).1 (spawn_frame _).2.1]
      unfold onnegotiationneeded
      split
      · exact negotiationCatch_closedOrNull _ w h
      · exact h
    · exact h
  · exact h

theorem step_settle_closedOrNull (w : World) (k : Nat) (r : Settled)
    (h : currentClosedOrNull w = true) :
    currentClosedOrNull (step w (Event.settle k r)) = true := by
  simp only [step]
  split
  · rename_i t _
    rw [currentClosedOrNull_congr _ _ (settleAt_frame k _).1 (settleAt_frame k _).2.1]
    exact resume_closedOrNull t r w h
  · exact h

/-- With the current connection closed or null and `isConnected` false, nothing
but an explicit `startPlay` changes either. -/
theorem step_closedOrNull (w : World) (e : Event) (he : e.isStartPlay = false)
    (hc : w.player.isConnected = false) (h : currentClosedOrNull w = true) :
    (step w e).player.isConnected = false ∧ currentClosedOrNull (step w e) = true := by
  cases e with
  | startPlay => simp [Event.isStartPlay] at he
  | stopPlay =>
    refine ⟨(stopPlay_stopped w).2.1, ?_⟩
    simp [step, currentClosedOrNull, currentConnectionState, (stopPlay_stopped w).1]
  | loadeddata => exact ⟨hc, h⟩
  | emptied => exact ⟨hc, h⟩
  | elapse ms => exact ⟨hc, h⟩
  | timeout k =>
    simp only [step]
    split
    · rw [retryCallback_of_false _ (by exact retryCondition_of_not_connected _ hc)]
      exact ⟨hc, h⟩
    · exact ⟨hc, h⟩
  | connectionstatechange i st =>
    simp only [step]
    split
    · rename_i hlive
      exact onconnectionstatechange_closedOrNull _ hc (currentClosedOrNull_of_live w i st hlive h)
    · exact ⟨hc, h⟩
  | negotiationneeded i =>
    exact ⟨by rw [(step_negotiationneeded_frame w i).2.2.2.1]; exact hc,
      step_negotiationneeded_closedOrNull w i h⟩
  | settle k r =>
    exact ⟨by rw [(step_settle_frame w k r).2.2.2.1]; exact hc,
      step_settle_closedOrNull w k r h⟩
  | track i stream =>
    simp only [step]
    split
    · refine ⟨by rw [(ontrack_frame _ _).2.2.2.1]; exact hc, ?_⟩
      cases stream
      · exact h
      · exact h
    · exact ⟨hc, h⟩
  | error i =>
    simp only [step]
    split
    · exact ⟨hc, h⟩
    · exact ⟨hc, h⟩

theorem automaticReconnects_closedOrNull (w : World) (es : List Event)
    (hes : ∀ ev ∈ es, ev.isStartPlay = false)
    (hc : w.player.isConnected = false) (h : currentClosedOrNull w = true) :
    automaticReconnects w es = 0 ∧ (run w es).player.isConnected = false := by
  induction es generalizing w with
  | nil => exact ⟨rfl, hc⟩
  | cons e es ih =>
    have hs := step_closedOrNull w e (hes e (List.mem_cons_self _ _)) hc h
    have h2 := ih (step w e) (fun ev hev => hes ev (List.mem_cons_of_mem _ hev)) hs.1 hs.2
    refine ⟨?_, h2.2⟩
    simp only [automaticReconnects]
    rw [h2.1, invokesRetry_of_not_connected w e hc]
    rfl

theorem stopPlay_reset_flags (w : World) :
    (stopPlay w).player.connectionAttempts = 0 ∧ (stopPlay w).player.isTrackStarted = false := by
  cases hw : w.player.webrtc <;> simp [stopPlay, updateStatus, hw]

theorem startPlay_isTrackStarted (w : World)
    (h : (startPlay w).player.isTrackStarted = true) : w.player.isTrackStarted = true := by
  by_cases hb : trim w.player.elements.streamPath = ""
  · rw [startPlay_of_blank w hb] at h; exact h
  · rw [startPlay_of_nonblank w hb] at h; cases h

theorem startPlay_webrtc_of_blank (w : World) (h : trim w.player.elements.streamPath = "") :
    (startPlay w).player.webrtc = w.player.webrtc := by
  rw [startPlay_of_blank w h]; rfl

/-- One step keeps "`isTrackStarted` only if the current connection has been
read as `connected`", provided first frames arrive only then. -/
theorem step_nextConnected (b : Bool) (w : World) (e : Event)
    (h0 : w.player.isTrackStarted = true → b = true)
    (hf : (match e with
      | Event.loadeddata => b
      | _ => true) = true)
    (ht : (step w e).player.isTrackStarted = true) : nextConnected b w e = true := by
  cases e with
  | startPlay =>
    have ht0 := startPlay_isTrackStarted w ht
    by_cases hb : trim w.player.elements.streamPath = ""
    · simp [nextConnected, step, startPlay_webrtc_of_blank w hb, h0 ht0]
    · simp only [step] at ht
      rw [startPlay_of_nonblank w hb] at ht; cases ht
  | stopPlay =>
    have : (stopPlay w).player.isTrackStarted = false := (stopPlay_reset_flags w).2
    simp only [step] at ht
    rw [this] at ht; cases ht
  | loadeddata =>
    have hb : b = true := hf
    simp [nextConnected, step, onStreamStarted, updateStatus, hb]
  | emptied => simp [nextConnected, step, onStreamEmptied, h0 ht]
  | elapse ms => simp [nextConnected, step, h0 ht]
  | timeout k =>
    by_cases hd : timerDue w k = true
    · by_cases hc : retryCondition { w with timers := w.timers.eraseIdx k } = true
      · simp only [step, if_pos hd, retryCallback_of_true _ hc] at ht
        have ht0 := startPlay_isTrackStarted _ ht
        have : w.player.isTrackStarted = true := ht0
        simp [retryCondition, this] at hc
      · have hc2 : retryCondition { w with timers := w.timers.eraseIdx k } = false := by
          simpa using hc
        simp only [step, if_pos hd, retryCallback_of_false _ hc2] at ht
        simp [nextConnected, step, hd, retryCallback_of_false _ hc2, h0 ht]
    · simp only [step, if_neg hd] at ht
      simp [nextConnected, step, hd, h0 ht]
  | connectionstatechange i st =>
    by_cases hlive : isLive w i = true
    · simp only [step, if_pos hlive] at ht
      simp only [nextConnected, step, if_pos hlive, (onconnectionstatechange_frame _).2.2.1,
        if_true, reportsConnected, observedState]
      unfold onconnectionstatechange at ht
      split at ht <;> rename_i hs
      · simp [h0 ht]
      · simp [h0 ht]
      · simp [hs]
      · cases ht
      · cases ht
      · cases ht
      · simp [h0 ht]
    · simp only [step, if_neg hlive] at ht
      simp [nextConnected, step, hlive, h0 ht]
  | negotiationneeded i =>
    have hw := (step_negotiationneeded_frame w i).2.2.1
    rw [(step_negotiationneeded_frame w i).2.2.2.2.1] at ht
    simp [nextConnected, hw, h0 ht, reportsConnected, observedState]
  | settle k r =>
    have hw := (step_settle_frame w k r).2.2.1
    rw [(step_settle_frame w k r).2.2.2.2.1] at ht
    simp [nextConnected, hw, h0 ht, reportsConnected, observedState]
  | track i stream =>
    have hw : (step w (Event.track i stream)).player.webrtc = w.player.webrtc := by
      simp only [step]
      split
      · exact (ontrack_frame _ _).2.2.1
      · rfl
    have hk : (step w (Event.track i stream)).player.isTrackStarted =
        w.player.isTrackStarted := by
      simp only [step]
      split
      · exact (ontrack_frame _ _).2.2.2.2.1
      · rfl
    rw [hk] at ht
    simp [nextConnected, hw, h0 ht]
  | error i =>
    have hw : (step w (Event.error i)).player.webrtc = w.player.webrtc := by
      simp only [step]
      split <;> rfl
    have hk : (step w (Event.error i)).player.isTrackStarted = w.player.isTrackStarted := by
      simp only [step]
      split <;> rfl
    rw [hk] at ht
    simp [nextConnected, hw, h0 ht]

theorem run_connectedSinceStart (b : Bool) (w : World) (es : List Event)
    (h0 : w.player.isTrackStarted = true → b = true)
    (hf : framesAfterConnected b w es = true)
    (ht : (run w es).player.isTrackStarted = true) : connectedSinceStart b w es = true := by
  induction es generalizing b w with
  | nil => exact h0 ht
  | cons e es ih =>
    simp only [framesAfterConnected, Bool.and_eq_true] at hf
    exact ih (nextConnected b w e) (step w e) (step_nextConnected b w e h0 hf.1) hf.2 ht

/-- With `isConnected` false a timer firing only removes the timer. -/
theorem step_timeout_of_not_connected (w : World) (k : Nat)
    (hc : w.player.isConnected = false) : step w (Event.timeout k) = timerRemoved w k := by
  simp only [step, timerRemoved]
  split
  · rw [retryCallback_of_false _ (by exact retryCondition_of_not_connected _ hc)]
  · rfl

theorem map_modify_of_invariant {α β : Type} (f : α → α) (g : α → β) (i : Nat) (l : List α)
    (h : ∀ a, g (f a) = g a) : (List.modify f i l).map g = l.map g := by
  apply List.ext_getElem?
  intro n
  simp only [List.getElem?_map, List.getElem?_modify]
  cases l[n]? with
  | none => rfl
  | some a =>
    by_cases hin : i = n
    · simp [hin, h]
    · simp [hin]

theorem negotiationCatch_pcs (message : String) (w : World) :
    (negotiationCatch message w).1.pcs.map PeerConnection.remoteDescription =
      w.pcs.map PeerConnection.remoteDescription := by
  unfold negotiationCatch
  split
  · rfl
  · exact map_modify_of_invariant _ _ _ _ (fun _ => rfl)

/-! ## Validation of the stream path -/

/-- C1: with a stream path that is empty or only whitespace, `startPlay` reports
the "Please enter a stream path" error status and does nothing else:
`connectionAttempts`, `webrtc`, `isConnected` and `isTrackStarted` keep their
values and no peer connection is created. -/
theorem startPlay_blank_streamPath (w : World)
    (h : ∀ c ∈ w.player.elements.streamPath.data, isWhiteSpace c = true) :
    startPlay w =
      { w with player := { w.player with elements := { w.player.elements with
          statusText := "Please enter a stream path"
          statusDisplayClassName := "status-display error"
          statusDisplayHidden := false } } } ∧
    (startPlay w).player.connectionAttempts = w.player.connectionAttempts ∧
    (startPlay w).player.webrtc = w.player.webrtc ∧
    (startPlay w).player.isConnected = w.player.isConnected ∧
    (startPlay w).player.isTrackStarted = w.player.isTrackStarted ∧
    (startPlay w).pcs = w.pcs ∧
    (startPlay w).timers = w.timers := by
  have ht : trim w.player.elements.streamPath = "" := trim_eq_empty_of_blank _ h
  have hs : startPlay w = updateStatus statusMessages.noUrl "error" w := by
    simp [startPlay, ht]
  rw [hs]
  refine ⟨?_, rfl, rfl, rfl, rfl, rfl, rfl⟩
  rfl

theorem startPlay_blank_streamPath_witness :
    (∀ c ∈ (constructor pageBlank).player.elements.streamPath.data, isWhiteSpace c = true) ∧
    (startPlay (constructor pageBlank)).player.connectionAttempts = 0 ∧
    (startPlay (constructor pageBlank)).player.webrtc = none ∧
    (startPlay (constructor pageBlank)).pcs = [] ∧
    (startPlay (constructor pageBlank)).player.elements.statusText =
      "Please enter a stream path" := by
  have hb : ∀ c ∈ (constructor pageBlank).player.elements.streamPath.data,
      isWhiteSpace c = true := by
    simp [constructor, pageBlank, pageCam1, isWhiteSpace]
  have h := startPlay_blank_streamPath (constructor pageBlank) hb
  refine ⟨hb, ?_, ?_, ?_, ?_⟩
  · rw [h.2.1]; rfl
  · rw [h.2.2.1]; rfl
  · rw [h.2.2.2.2.2.1]; rfl
  · rw [h.1]

/-! ## Stop -/

/-- C2: from every state `stopPlay` reaches the reset state: `webrtc` is null and
the connection it held is closed, `connectionAttempts` is 0, `isConnected` and
`isTrackStarted` are false; and a second `stopPlay` changes nothing. -/
theorem stopPlay_reset_idempotent (w : World) :
    (stopPlay w).player.webrtc = none ∧
    (stopPlay w).player.connectionAttempts = 0 ∧
    (stopPlay w).player.isConnected = false ∧
    (stopPlay w).player.isTrackStarted = false ∧
    (∀ i, w.player.webrtc = some i → isLive (stopPlay w) i = false) ∧
    (∀ i, isLive (stopPlay w) i = true → isLive w i = true) ∧
    stopPlay (stopPlay w) = stopPlay w := by
  cases hw : w.player.webrtc with
  | none =>
    refine ⟨?_, ?_, ?_, ?_, ?_, ?_, ?_⟩
    · simp [stopPlay, updateStatus, hw]
    · simp [stopPlay, updateStatus, hw]
    · simp [stopPlay, updateStatus, hw]
    · simp [stopPlay, updateStatus, hw]
    · intro i hi; cases hi
    · intro i hi; simpa [stopPlay, updateStatus, hw, isLive] using hi
    · simp [stopPlay, updateStatus, hw]
  | some j =>
    refine ⟨?_, ?_, ?_, ?_, ?_, ?_, ?_⟩
    · simp [stopPlay, updateStatus, hw]
    · simp [stopPlay, updateStatus, hw]
    · simp [stopPlay, updateStatus, hw]
    · simp [stopPlay, updateStatus, hw]
    · intro i hi
      cases hi
      simp only [stopPlay, updateStatus, hw]
      exact isLive_closePc_self w _ _ _ _ _
    · intro i hi
      simp only [stopPlay, updateStatus, hw, isLive, closePc, List.getElem?_modify] at hi
      unfold isLive
      cases hp : w.pcs[i]? with
      | none => simp [hp] at hi
      | some pc =>
        by_cases hji : j = i
        · simp [hp, hji] at hi
        · simpa [hp, hji] using hi
    · simp [stopPlay, updateStatus, hw]

/-! ## Automatic reconnects -/

/-- C3: after one explicit `startPlay` on a fresh controller with a non-empty
stream path, along any events without a further explicit `startPlay` or
`stopPlay`, every automatic reconnect (a timer firing that calls `startPlay`)
adds exactly 1 to `connectionAttempts`, `connectionAttempts` is 1 plus the number
of automatic reconnects and never exceeds `maxRetries` = 4, so no more than
`maxRetries` automatic reconnects occur. -/
theorem automaticReconnects_le_maxRetries (e : Elements) (es : List Event)
    (hpath : trim e.streamPath ≠ "")
    (hes : ∀ ev ∈ es, ev.isStartOrStop = false) :
    (∀ pre ev post, es = pre ++ ev :: post →
      invokesRetry (run (startPlay (constructor e)) pre) ev = true →
      (step (run (startPlay (constructor e)) pre) ev).player.connectionAttempts =
        (run (startPlay (constructor e)) pre).player.connectionAttempts + 1) ∧
    (run (startPlay (constructor e)) es).player.connectionAttempts =
      1 + automaticReconnects (startPlay (constructor e)) es ∧
    (run (startPlay (constructor e)) es).player.maxRetries = 4 ∧
    (run (startPlay (constructor e)) es).player.connectionAttempts ≤ 4 ∧
    automaticReconnects (startPlay (constructor e)) es ≤ 4 := by
  have hp0 : trim (constructor e).player.elements.streamPath ≠ "" := hpath
  have hs := startPlay_of_nonblank (constructor e) hp0
  have hpath0 : trim (startPlay (constructor e)).player.elements.streamPath ≠ "" := by
    rw [startPlay_streamPath]; exact hp0
  have ha0 : (startPlay (constructor e)).player.connectionAttempts = 1 := by rw [hs]; rfl
  have hm0 : (startPlay (constructor e)).player.maxRetries = 4 := by rw [hs]; rfl
  have hle0 : (startPlay (constructor e)).player.connectionAttempts ≤
      (startPlay (constructor e)).player.maxRetries := by rw [ha0, hm0]; decide
  have h := run_connectionAttempts (startPlay (constructor e)) es hpath0 hes hle0
  rw [ha0, hm0] at h
  refine ⟨?_, h.1, h.2.2.1, h.2.1, ?_⟩
  · intro pre ev post hsplit hfire
    have hpre : ∀ x ∈ pre, x.isStartOrStop = false := fun x hx =>
      hes x (by rw [hsplit]; exact List.mem_append_left _ hx)
    have hev : ev.isStartOrStop = false :=
      hes ev (by rw [hsplit]; exact List.mem_append_right _ (List.mem_cons_self _ _))
    have hr := run_connectionAttempts (startPlay (constructor e)) pre hpath0 hpre hle0
    have hpath1 : trim (run (startPlay (constructor e)) pre).player.elements.streamPath ≠ "" := by
      rw [hr.2.2.2]; exact hpath0
    rw [step_connectionAttempts _ ev hpath1 hev, if_pos hfire]
  · have h1 := h.1
    have h2 := h.2.1
    omega

theorem automaticReconnects_le_maxRetries_witness :
    trim pageCam1.streamPath ≠ "" ∧
    (∀ ev ∈ oneReconnect, ev.isStartOrStop = false) ∧
    automaticReconnects (startPlay (constructor pageCam1)) oneReconnect = 1 ∧
    (run (startPlay (constructor pageCam1)) oneReconnect).player.connectionAttempts = 2 ∧
    automaticReconnects (startPlay (constructor pageCam1)) oneReconnect ≤ 4 := by
  have hp : trim pageCam1.streamPath ≠ "" := by decide
  have he : ∀ ev ∈ oneReconnect, ev.isStartOrStop = false := by
    simp [oneReconnect, Event.isStartOrStop]
  have h := automaticReconnects_le_maxRetries pageCam1 oneReconnect hp he
  refine ⟨hp, he, ?_, ?_, h.2.2.2.2⟩
  · decide
  · decide

/-! ## The retry decision -/

/-- C4: `onStreamEmptied` only arms a timer for 4000 ms later; the firing of
that timer does nothing before 4000 ms have passed, and once they have, it
calls `startPlay` again exactly when `isTrackStarted` is false,
`connectionAttempts < maxRetries` (4 after the constructor) and `isConnected`
is true.  The same decision is taken by every due timer; when a condition fails
the firing only removes the timer, so `connectionAttempts`, `webrtc`,
`isConnected` and `isTrackStarted` keep their values. -/
theorem retry_decision (w : World) :
    onStreamEmptied w = { w with timers := w.timers ++ [w.now + 4000] } ∧
    (∀ e, (constructor e).player.maxRetries = 4) ∧
    (∀ ms, ms < 4000 →
      step (step (onStreamEmptied w) (Event.elapse ms)) (Event.timeout w.timers.length) =
        step (onStreamEmptied w) (Event.elapse ms)) ∧
    (∀ ms, 4000 ≤ ms →
      step (step (onStreamEmptied w) (Event.elapse ms)) (Event.timeout w.timers.length) =
        if w.player.isTrackStarted = false ∧
            w.player.connectionAttempts < w.player.maxRetries ∧
            w.player.isConnected = true then
          startPlay (updateStatus statusMessages.reconnecting "warning"
            { w with now := w.now + ms })
        else
          { w with now := w.now + ms }) ∧
    (∀ k, timerDue w k = true →
      step w (Event.timeout k) =
        if w.player.isTrackStarted = false ∧
            w.player.connectionAttempts < w.player.maxRetries ∧
            w.player.isConnected = true then
          startPlay (updateStatus statusMessages.reconnecting "warning"
            { w with timers := w.timers.eraseIdx k })
        else
          { w with timers := w.timers.eraseIdx k }) ∧
    (∀ k, timerDue w k = false → step w (Event.timeout k) = w) := by
  have hcond : ∀ v : World, v.player = w.player →
      (retryCondition v = true ↔
        (w.player.isTrackStarted = false ∧
          w.player.connectionAttempts < w.player.maxRetries ∧
          w.player.isConnected = true)) := by
    intro v hv
    simp [retryCondition, hv, and_assoc]
  refine ⟨rfl, fun _ => rfl, ?_, ?_, ?_, ?_⟩
  · intro ms hms
    have hnd : timerDue (step (onStreamEmptied w) (Event.elapse ms)) w.timers.length = false := by
      simp [timerDue, step, onStreamEmptied, retryDelay]
      omega
    generalize step (onStreamEmptied w) (Event.elapse ms) = v at hnd
    simp only [step]
    rw [if_neg (by simp [hnd])]
  · intro ms hms
    have hd : timerDue (step (onStreamEmptied w) (Event.elapse ms)) w.timers.length = true := by
      simp [timerDue, step, onStreamEmptied, retryDelay]
      omega
    have he : (w.timers ++ [w.now + retryDelay]).eraseIdx w.timers.length = w.timers := by
      rw [List.eraseIdx_append_of_length_le (le_refl _)]; simp
    have hs : step (step (onStreamEmptied w) (Event.elapse ms)) (Event.timeout w.timers.length) =
        retryCallback { w with now := w.now + ms } := by
      generalize hv : step (onStreamEmptied w) (Event.elapse ms) = v at hd
      simp only [step]
      rw [if_pos hd, ← hv]
      simp only [step, onStreamEmptied, he]
    rw [hs]
    unfold retryCallback
    by_cases hc : retryCondition { w with now := w.now + ms } = true
    · rw [if_pos hc, if_pos ((hcond _ rfl).mp hc)]
    · rw [if_neg hc, if_neg (fun h => hc ((hcond _ rfl).mpr h))]
  · intro k hd
    simp only [step]
    rw [if_pos hd]
    unfold retryCallback
    by_cases hc : retryCondition { w with timers := w.timers.eraseIdx k } = true
    · rw [if_pos hc, if_pos ((hcond _ rfl).mp hc)]
    · rw [if_neg hc, if_neg (fun h => hc ((hcond _ rfl).mpr h))]
  · intro k hd
    simp only [step]
    rw [if_neg (by simp [hd])]

theorem retry_decision_witness :
    (4000 : Nat) ≤ 4000 ∧
    (run (startPlay (constructor pageCam1))
      [Event.connectionstatechange 0 ConnectionState.connected]).player.isConnected = true ∧
    (step (step (onStreamEmptied (run (startPlay (constructor pageCam1))
        [Event.connectionstatechange 0 ConnectionState.connected])) (Event.elapse 4000))
      (Event.timeout 0)).player.connectionAttempts = 2 ∧
    (step (step (onStreamEmptied (startPlay (constructor pageCam1))) (Event.elapse 4000))
      (Event.timeout 0)) =
      { startPlay (constructor pageCam1) with now := 4000 } := by
  have h := (retry_decision (startPlay (constructor pageCam1))).2.2.2.1 4000 (le_refl _)
  refine ⟨le_refl _, by decide, by decide, ?_⟩
  have hl : (startPlay (constructor pageCam1)).timers.length = 0 := by decide
  rw [hl] at h
  rw [h, if_neg (by decide)]
  rfl

/-! ## Replacing the connection -/

/-- C5: the automatic reconnect of `oneReconnect` stores a new connection in
`webrtc` while the previous one, connection 0, is still connected: two
connections are live. -/
theorem reconnect_keeps_previous_connection_live :
    (run (startPlay (constructor pageCam1)) oneReconnect).player.webrtc = some 1 ∧
    (run (startPlay (constructor pageCam1)) oneReconnect).pcs.map
      PeerConnection.connectionState = [ConnectionState.connected, ConnectionState.new] ∧
    liveConnections (run (startPlay (constructor pageCam1)) oneReconnect) = [0, 1] := by
  decide

/-! ## Pending timers -/

/-- C6, as stated, fails: a timer scheduled before `stopPlay` and a new
`startPlay` still calls `startPlay` when it fires, and so does a timer
scheduled before an automatic `startPlay`. -/
theorem stale_timer_invokes_startPlay :
    (run (startPlay (constructor pageCam1)) staleTimerAfterStop).timers = [4000] ∧
    invokesRetry (run (startPlay (constructor pageCam1)) staleTimerAfterStop)
      (Event.timeout 0) = true ∧
    (step (run (startPlay (constructor pageCam1)) staleTimerAfterStop)
      (Event.timeout 0)).player.webrtc = some 2 ∧
    (run (startPlay (constructor pageCam1)) staleTimerAfterRetry).player.webrtc = some 1 ∧
    (run (startPlay (constructor pageCam1)) staleTimerAfterRetry).timers = [4000] ∧
    invokesRetry (run (startPlay (constructor pageCam1)) staleTimerAfterRetry)
      (Event.timeout 0) = true ∧
    (step (run (startPlay (constructor pageCam1)) staleTimerAfterRetry)
      (Event.timeout 0)).player.webrtc = some 2 := by
  decide

/-- C6, amended: after `stopPlay`, as long as no explicit `startPlay` follows, no
timer firing calls `startPlay`, whatever other events arrive; `isConnected`
stays false and `webrtc` stays null.  The timers themselves stay armed. -/
theorem no_retry_after_stopPlay (w : World) (es : List Event)
    (hes : ∀ ev ∈ es, ev.isStartPlay = false) :
    automaticReconnects (stopPlay w) es = 0 ∧
    (run (stopPlay w) es).player.isConnected = false ∧
    (run (stopPlay w) es).player.webrtc = none ∧
    (stopPlay w).timers = w.timers := by
  have h := stopPlay_stopped w
  exact ⟨(automaticReconnects_stopped _ es hes h.2.1 h.1).1,
    (automaticReconnects_stopped _ es hes h.2.1 h.1).2.1,
    (automaticReconnects_stopped _ es hes h.2.1 h.1).2.2, h.2.2⟩

theorem no_retry_after_stopPlay_witness :
    (∀ ev ∈ [Event.connectionstatechange 0 ConnectionState.connected, Event.elapse 4000,
      Event.timeout 0], ev.isStartPlay = false) ∧
    (run (startPlay (constructor pageCam1))
      [Event.connectionstatechange 0 ConnectionState.connected, Event.emptied]).timers =
      [4000] ∧
    automaticReconnects
      (stopPlay (run (startPlay (constructor pageCam1))
        [Event.connectionstatechange 0 ConnectionState.connected, Event.emptied]))
      [Event.connectionstatechange 0 ConnectionState.connected, Event.elapse 4000,
        Event.timeout 0] = 0 := by
  have he : ∀ ev ∈ [Event.connectionstatechange 0 ConnectionState.connected,
      Event.elapse 4000, Event.timeout 0], ev.isStartPlay = false := by
    simp [Event.isStartPlay]
  exact ⟨he, by decide, (no_retry_after_stopPlay _ _ he).1⟩

/-! ## After the first frames -/

/-- C7, as stated, fails: after `onStreamStarted`, with no explicit start or stop,
a `disconnected` followed by `connected` makes a later timer firing call
`startPlay`. -/
theorem retry_after_stream_started :
    (run (startPlay (constructor pageCam1))
      (dropAfterFirstFrames.take 2)).player.isTrackStarted = true ∧
    (∀ ev ∈ dropAfterFirstFrames, ev.isStartOrStop = false) ∧
    invokesRetry (run (startPlay (constructor pageCam1)) dropAfterFirstFrames)
      (Event.timeout 0) = true ∧
    (step (run (startPlay (constructor pageCam1)) dropAfterFirstFrames)
      (Event.timeout 0)).player.connectionAttempts = 2 := by
  decide

/-- C7, amended: after `onStreamStarted`, as long as there is no explicit start or
stop and the connection-state handler reads no `disconnected`, `failed` or
`closed`, `isTrackStarted` stays true and no timer firing calls `startPlay`. -/
theorem no_retry_after_stream_started (w : World) (es : List Event)
    (hes : ∀ ev ∈ es, ev.isStartOrStop = false)
    (hl : noLossReported (onStreamStarted w) es = true) :
    automaticReconnects (onStreamStarted w) es = 0 ∧
    (run (onStreamStarted w) es).player.isTrackStarted = true :=
  automaticReconnects_trackStarted (onStreamStarted w) es hes hl rfl

theorem no_retry_after_stream_started_witness :
    (∀ ev ∈ emptiedAfterFirstFrames, ev.isStartOrStop = false) ∧
    noLossReported
      (onStreamStarted (run (startPlay (constructor pageCam1))
        [Event.connectionstatechange 0 ConnectionState.connected]))
      emptiedAfterFirstFrames = true ∧
    automaticReconnects
      (onStreamStarted (run (startPlay (constructor pageCam1))
        [Event.connectionstatechange 0 ConnectionState.connected]))
      emptiedAfterFirstFrames = 0 := by
  have he : ∀ ev ∈ emptiedAfterFirstFrames, ev.isStartOrStop = false := by
    simp [emptiedAfterFirstFrames, Event.isStartOrStop]
  have hl : noLossReported
      (onStreamStarted (run (startPlay (constructor pageCam1))
        [Event.connectionstatechange 0 ConnectionState.connected]))
      emptiedAfterFirstFrames = true := by decide
  exact ⟨he, hl, (no_retry_after_stream_started _ _ he hl).1⟩

/-! ## Failed and closed transports -/

/-- C9, as stated, fails: after an automatic reconnect the orphaned connection 0
is still live; when it reports `failed` the handler reads the state of the
connection now in `webrtc`, `isConnected` stays true, and the next timer firing,
with no transport event in between, calls `startPlay`. -/
theorem retry_after_stale_failed_report :
    isLive (run (startPlay (constructor pageCam1)) oneReconnect) 0 = true ∧
    (step (run (startPlay (constructor pageCam1)) oneReconnect)
      (Event.connectionstatechange 0 ConnectionState.failed)).player.isConnected = true ∧
    (run (startPlay (constructor pageCam1)) staleFailedReport).pcs.map
      PeerConnection.connectionState = [ConnectionState.failed, ConnectionState.new] ∧
    invokesRetry (run (startPlay (constructor pageCam1)) staleFailedReport)
      (Event.timeout 0) = true ∧
    (run (startPlay (constructor pageCam1)) staleFailedReport).player.connectionAttempts = 2 ∧
    (step (run (startPlay (constructor pageCam1)) staleFailedReport)
      (Event.timeout 0)).player.connectionAttempts = 3 := by
  decide

/-- C9, amended: when the connection in `webrtc` reports `failed` or `closed`,
`isConnected` and `isTrackStarted` are false afterwards and `connectionAttempts`
is unchanged; and along any events after it that are not `connectionstatechange`
events, `isConnected` stays false and every timer firing only removes the
timer. -/
theorem no_retry_after_failed_or_closed (w : World) (i : Nat) (st : ConnectionState)
    (es : List Event)
    (hw : w.player.webrtc = some i) (hlive : isLive w i = true)
    (hst : st = ConnectionState.failed ∨ st = ConnectionState.closed)
    (hes : ∀ x ∈ es, x.isConnectionStateChange = false) :
    (step w (Event.connectionstatechange i st)).player.isConnected = false ∧
    (step w (Event.connectionstatechange i st)).player.isTrackStarted = false ∧
    (step w (Event.connectionstatechange i st)).player.connectionAttempts =
      w.player.connectionAttempts ∧
    (step w (Event.connectionstatechange i st)).player.webrtc = w.player.webrtc ∧
    (∀ pre k post, es = pre ++ Event.timeout k :: post →
      step (run (step w (Event.connectionstatechange i st)) pre) (Event.timeout k) =
        timerRemoved (run (step w (Event.connectionstatechange i st)) pre) k) ∧
    automaticReconnects (step w (Event.connectionstatechange i st)) es = 0 ∧
    (run (step w (Event.connectionstatechange i st)) es).player.isConnected = false := by
  have hread : currentConnectionState
      { w with pcs := w.pcs.modify (fun pc => { pc with connectionState := st }) i } =
      some st := by
    unfold isLive at hlive
    cases hp : w.pcs[i]? with
    | none => simp [hp] at hlive
    | some pc => simp [currentConnectionState, hw, List.getElem?_modify, hp]
  have key : (step w (Event.connectionstatechange i st)).player.isConnected = false ∧
      (step w (Event.connectionstatechange i st)).player.isTrackStarted = false ∧
      (step w (Event.connectionstatechange i st)).player.connectionAttempts =
        w.player.connectionAttempts ∧
      (step w (Event.connectionstatechange i st)).player.webrtc = w.player.webrtc := by
    simp only [step, hlive, if_true]
    unfold onconnectionstatechange
    rw [hread]
    rcases hst with h | h <;> subst h <;> exact ⟨rfl, rfl, rfl, rfl⟩
  have h := automaticReconnects_not_connected (step w (Event.connectionstatechange i st)) es
    hes key.1
  refine ⟨key.1, key.2.1, key.2.2.1, key.2.2.2, ?_, h.1, h.2⟩
  intro pre k post hsplit
  have hpre : ∀ x ∈ pre, x.isConnectionStateChange = false := fun x hx =>
    hes x (by rw [hsplit]; exact List.mem_append_left _ hx)
  exact step_timeout_of_not_connected _ k
    (automaticReconnects_not_connected _ pre hpre key.1).2

theorem no_retry_after_failed_or_closed_witness :
    beforeFirstRetry.player.webrtc = some 0 ∧
    isLive beforeFirstRetry 0 = true ∧
    (∀ x ∈ afterFailed, x.isConnectionStateChange = false) ∧
    beforeFirstRetry.player.isConnected = true ∧
    invokesRetry beforeFirstRetry (Event.timeout 0) = true ∧
    (run (step beforeFirstRetry (Event.connectionstatechange 0 ConnectionState.failed))
      afterFailed).player.isConnected = false ∧
    (run (step beforeFirstRetry (Event.connectionstatechange 0 ConnectionState.failed))
      afterFailed).player.connectionAttempts = 2 ∧
    automaticReconnects
      (step beforeFirstRetry (Event.connectionstatechange 0 ConnectionState.failed))
      afterFailed = 0 := by
  have hw : beforeFirstRetry.player.webrtc = some 0 := by decide
  have hl : isLive beforeFirstRetry 0 = true := by decide
  have he : ∀ x ∈ afterFailed, x.isConnectionStateChange = false := by
    simp [afterFailed, Event.isConnectionStateChange]
  have h := no_retry_after_failed_or_closed beforeFirstRetry 0 ConnectionState.failed
    afterFailed hw hl (Or.inl rfl) he
  exact ⟨hw, hl, he, by decide, by decide, h.2.2.2.2.2.2, by decide, h.2.2.2.2.2.1⟩

/-! ## Signaling failures -/

/-- C8, as stated, fails.  When the POST of an automatic reconnect is answered
401, the handler closes the connection and rejects with the status, but
`isConnected` is still true from the previous connection and the next timer
firing calls `startPlay` with no explicit start in between.  When `stopPlay`
has run while the POST was in flight, the handler closes nothing and rejects with
a `TypeError` instead of the error carrying the status; and when a new
`startPlay` has followed, the handler closes the new connection 1. -/
theorem retry_after_signaling_failure :
    (run (startPlay (constructor pageCam1)) (oneReconnect ++ negotiateUntilFetch 1 0)).tasks =
      [Suspended.fetch "http://localhost:8889/cam1/whep"] ∧
    (resume (Suspended.fetch "http://localhost:8889/cam1/whep") (Settled.response unauthorized)
      (run (startPlay (constructor pageCam1)) (oneReconnect ++ negotiateUntilFetch 1 0))).2 =
      Progress.rejected "WHEP server error: 401 Unauthorized" ∧
    (∀ ev ∈ unauthorizedReconnect, ev.isStartPlay = false) ∧
    currentConnectionState (run (startPlay (constructor pageCam1)) unauthorizedReconnect) =
      some ConnectionState.closed ∧
    invokesRetry (run (startPlay (constructor pageCam1)) unauthorizedReconnect)
      (Event.timeout 0) = true ∧
    (step (run (startPlay (constructor pageCam1)) unauthorizedReconnect)
      (Event.timeout 0)).player.connectionAttempts = 3 ∧
    (run (startPlay (constructor pageCam1)) stopDuringFetch).tasks =
      [Suspended.fetch "http://localhost:8889/cam1/whep"] ∧
    resume (Suspended.fetch "http://localhost:8889/cam1/whep") (Settled.response unauthorized)
      (run (startPlay (constructor pageCam1)) stopDuringFetch) =
      (run (startPlay (constructor pageCam1)) stopDuringFetch, Progress.rejected typeError) ∧
    (run (startPlay (constructor pageCam1)) (restartDuringFetch.take 5)).pcs.map
      PeerConnection.connectionState = [ConnectionState.closed, ConnectionState.new] ∧
    (run (startPlay (constructor pageCam1)) restartDuringFetch).pcs.map
      PeerConnection.connectionState = [ConnectionState.closed, ConnectionState.closed] := by
  decide

/-- C8, amended: when the signaling POST returns a non-success status, the
negotiation handler sets no remote description and changes no field of the
player; if `webrtc` is not null at that moment it closes the connection in
`webrtc` and rejects with an error carrying the status, and if `webrtc` is null
it closes nothing and rejects with a `TypeError`.  If `isConnected` is false at
that moment, then until the next explicit `startPlay` it stays false and every
timer firing only removes the timer. -/
theorem signaling_failure_no_retry (w : World) (k : Nat) (url : String) (response : Response)
    (es : List Event)
    (ht : w.tasks[k]? = some (Suspended.fetch url))
    (hok : response.ok = false)
    (hes : ∀ ev ∈ es, ev.isStartPlay = false) :
    (∀ i, w.player.webrtc = some i →
      resume (Suspended.fetch url) (Settled.response response) w =
        ({ w with pcs := closePc i w.pcs },
          Progress.rejected ("WHEP server error: " ++ toString response.status ++ " " ++
            response.statusText))) ∧
    (w.player.webrtc = none →
      resume (Suspended.fetch url) (Settled.response response) w =
        (w, Progress.rejected typeError)) ∧
    step w (Event.settle k (Settled.response response)) =
      { (resume (Suspended.fetch url) (Settled.response response) w).1 with
        tasks := w.tasks.eraseIdx k } ∧
    (step w (Event.settle k (Settled.response response))).player = w.player ∧
    (step w (Event.settle k (Settled.response response))).pcs.map
      PeerConnection.remoteDescription = w.pcs.map PeerConnection.remoteDescription ∧
    currentClosedOrNull (step w (Event.settle k (Settled.response response))) = true ∧
    (w.player.isConnected = false →
      (∀ pre j post, es = pre ++ Event.timeout j :: post →
        step (run (step w (Event.settle k (Settled.response response))) pre)
            (Event.timeout j) =
          timerRemoved (run (step w (Event.settle k (Settled.response response))) pre) j) ∧
      automaticReconnects (step w (Event.settle k (Settled.response response))) es = 0 ∧
      (run (step w (Event.settle k (Settled.response response))) es).player.isConnected =
        false) := by
  have hr : resume (Suspended.fetch url) (Settled.response response) w =
      negotiationCatch
        ("WHEP server error: " ++ toString response.status ++ " " ++ response.statusText) w := by
    simp only [resume, hok, if_true]
  have hsome : ∀ i, w.player.webrtc = some i →
      resume (Suspended.fetch url) (Settled.response response) w =
        ({ w with pcs := closePc i w.pcs },
          Progress.rejected ("WHEP server error: " ++ toString response.status ++ " " ++
            response.statusText)) := by
    intro i hi
    rw [hr]
    simp only [negotiationCatch, hi]
  have hnone : w.player.webrtc = none →
      resume (Suspended.fetch url) (Settled.response response) w =
        (w, Progress.rejected typeError) := by
    intro hn
    rw [hr]
    simp only [negotiationCatch, hn]
  have hstep : step w (Event.settle k (Settled.response response)) =
      { (resume (Suspended.fetch url) (Settled.response response) w).1 with
        tasks := w.tasks.eraseIdx k } := by
    simp only [step, ht]
    cases hweb : w.player.webrtc with
    | none => rw [hnone hweb]; rfl
    | some i => rw [hsome i hweb]; rfl
  have hplayer : (step w (Event.settle k (Settled.response response))).player = w.player := by
    rw [hstep, hr]
    exact (negotiationCatch_frame _ w).1
  have hremote : (step w (Event.settle k (Settled.response response))).pcs.map
      PeerConnection.remoteDescription = w.pcs.map PeerConnection.remoteDescription := by
    rw [hstep, hr]
    exact negotiationCatch_pcs _ w
  have hclosed : currentClosedOrNull (step w (Event.settle k (Settled.response response))) =
      true := by
    rw [hstep]
    cases hweb : w.player.webrtc with
    | none =>
      rw [hnone hweb]
      simp [currentClosedOrNull, currentConnectionState, hweb]
    | some i =>
      rw [hsome i hweb]
      simp only [currentClosedOrNull, currentConnectionState, hweb, closePc,
        List.getElem?_modify]
      cases w.pcs[i]? <;> simp
  refine ⟨hsome, hnone, hstep, hplayer, hremote, hclosed, ?_⟩
  intro hc
  have hc2 : (step w (Event.settle k (Settled.response response))).player.isConnected =
      false := by rw [hplayer]; exact hc
  have h := automaticReconnects_closedOrNull _ es hes hc2 hclosed
  refine ⟨?_, h.1, h.2⟩
  intro pre j post hsplit
  have hpre : ∀ x ∈ pre, x.isStartPlay = false := fun x hx =>
    hes x (by rw [hsplit]; exact List.mem_append_left _ hx)
  exact step_timeout_of_not_connected _ j
    (automaticReconnects_closedOrNull _ pre hpre hc2 hclosed).2

theorem signaling_failure_no_retry_witness :
    (run (startPlay (constructor pageCam1)) (negotiateUntilFetch 0 0)).tasks[0]? =
      some (Suspended.fetch "http://localhost:8889/cam1/whep") ∧
    unauthorized.ok = false ∧
    (run (startPlay (constructor pageCam1)) (negotiateUntilFetch 0 0)).player.isConnected =
      false ∧
    (step (run (startPlay (constructor pageCam1)) (negotiateUntilFetch 0 0))
      (Event.settle 0 (Settled.response unauthorized))).pcs.map
      PeerConnection.connectionState = [ConnectionState.closed] ∧
    (run (step (run (startPlay (constructor pageCam1)) (negotiateUntilFetch 0 0))
        (Event.settle 0 (Settled.response unauthorized)))
      [Event.emptied, Event.elapse 4000, Event.timeout 0]).player.connectionAttempts = 1 ∧
    automaticReconnects
      (step (run (startPlay (constructor pageCam1)) (negotiateUntilFetch 0 0))
        (Event.settle 0 (Settled.response unauthorized)))
      [Event.emptied, Event.elapse 4000, Event.timeout 0] = 0 := by
  have ht : (run (startPlay (constructor pageCam1)) (negotiateUntilFetch 0 0)).tasks[0]? =
      some (Suspended.fetch "http://localhost:8889/cam1/whep") := by decide
  have hok : unauthorized.ok = false := by decide
  have hc : (run (startPlay (constructor pageCam1))
      (negotiateUntilFetch 0 0)).player.isConnected = false := by decide
  have h := signaling_failure_no_retry
    (run (startPlay (constructor pageCam1)) (negotiateUntilFetch 0 0)) 0
    "http://localhost:8889/cam1/whep" unauthorized
    [Event.emptied, Event.elapse 4000, Event.timeout 0] ht hok
    (by simp [Event.isStartPlay])
  exact ⟨ht, hok, hc, by decide, by decide, (h.2.2.2.2.2.2 hc).2.1⟩

/-! ## First frames and the transport -/

/-- C10, as stated, fails: a `loadeddata` right after `startPlay` sets
`isTrackStarted` although the connection has never been read as `connected`. -/
theorem trackStarted_before_connected :
    (run (constructor pageCam1) [Event.startPlay, Event.loadeddata]).player.isTrackStarted =
      true ∧
    (run (constructor pageCam1) [Event.startPlay, Event.loadeddata]).player.isConnected =
      false ∧
    connectedSinceStart false (constructor pageCam1) [Event.startPlay, Event.loadeddata] =
      false := by
  decide

/-- C10, amended: along any events from a fresh controller in which every
`loadeddata` arrives after the connection in `webrtc` has been read as
`connected`, `isTrackStarted` is true only if the connection now in `webrtc` has
been read as `connected` since it was stored there. -/
theorem trackStarted_implies_connected (e : Elements) (es : List Event)
    (hf : framesAfterConnected false (constructor e) es = true)
    (ht : (run (constructor e) es).player.isTrackStarted = true) :
    connectedSinceStart false (constructor e) es = true :=
  run_connectedSinceStart false (constructor e) es (fun h => by cases h) hf ht

theorem trackStarted_implies_connected_witness :
    framesAfterConnected false (constructor pageCam1) playUntilFirstFrames = true ∧
    (run (constructor pageCam1) playUntilFirstFrames).player.isTrackStarted = true ∧
    connectedSinceStart false (constructor pageCam1) playUntilFirstFrames = true := by
  have hf : framesAfterConnected false (constructor pageCam1) playUntilFirstFrames = true := by
    decide
  have ht : (run (constructor pageCam1) playUntilFirstFrames).player.isTrackStarted = true := by
    decide
  exact ⟨hf, ht, trackStarted_implies_connected pageCam1 playUntilFirstFrames hf ht⟩

end RTSPWebRTCPlayer
